import Mathlib

/-!
# Accelerometer conditioning pipeline (`src/main/sensors/acceleration.c`)

A shallow embedding of the calibration state machines and of the reading
pipeline of `acceleration.c`, followed by the properties established about
them.

Conventions of the embedding:

* C integers are `Int`/`Nat`; every store into a fixed-width variable goes
  through the matching wrap function (`wrapInt32`, `wrapInt16`, the
  `% 65536` of the `uint16_t` counters), and C's `/` on signed integers is
  `Int.tdiv` (truncation toward zero).
* The file-level and function-level `static` variables, the `extern` flags and
  the two objects reached through pointers (`accelerationTrims->raw`,
  `rollAndPitchTrims->values`) are the fields of `AccState`.
* Calls into other modules that only have an effect (`saveConfigAndNotify`,
  `beeper`) append an `Event` to `AccState.events`.
* `acc.read`, the filter and `alignSensors` are outside the file: one pass of
  `updateAccelerationReadings` takes as input `none` when `acc.read` reports no
  data and `some s` when lines 217-221 leave the filtered, aligned sample `s`
  in `accSmooth`.
-/

namespace Acceleration

/-! ## Machine integers -/

/-- Value of an integer after conversion to `int32_t`. -/
def wrapInt32 (v : Int) : Int := (v + 2147483648) % 4294967296 - 2147483648

/-- Value of an integer after conversion to `int16_t`. -/
def wrapInt16 (v : Int) : Int := (v + 32768) % 65536 - 32768

/-- Range of `int32_t`. -/
def inInt32 (v : Int) : Prop := -2147483648 ≤ v ∧ v ≤ 2147483647

/-- Range of `int16_t`. -/
def inInt16 (v : Int) : Prop := -32768 ≤ v ∧ v ≤ 32767

instance (v : Int) : Decidable (inInt32 v) := by unfold inInt32; infer_instance

instance (v : Int) : Decidable (inInt16 v) := by unfold inInt16; infer_instance

/-! ## Data model -/

/-- Index of `common/axis.h`: `X = 0`, `Y = 1`, `Z = 2`. -/
inductive Axis where
  | X
  | Y
  | Z
deriving DecidableEq

/-- A three-element array indexed by axis (`accSmooth`, `a`, `b`, `raw`, ...). -/
structure Vec3 where
  X : Int
  Y : Int
  Z : Int
deriving DecidableEq

/-- Read `v[axis]`. -/
def Vec3.get (v : Vec3) : Axis → Int
  | Axis.X => v.X
  | Axis.Y => v.Y
  | Axis.Z => v.Z

/-- Write `v[axis] = w`. -/
def Vec3.set (v : Vec3) (axis : Axis) (w : Int) : Vec3 :=
  match axis with
  | Axis.X => { v with X := w }
  | Axis.Y => { v with Y := w }
  | Axis.Z => { v with Z := w }

/-- The all-zero array. -/
def Vec3.zero : Vec3 := ⟨0, 0, 0⟩

/-- The `values` of a `rollAndPitchTrims_t`. -/
structure rollAndPitchTrims_t where
  roll : Int
  pitch : Int
deriving DecidableEq

/-- Calls that leave the module, in the order they are made.
`saveConfigAndNotify` carries the Trims and angular trims that are live at the
moment of the call. -/
inductive Event where
  | saveConfigAndNotify (raw : Vec3) (angle : rollAndPitchTrims_t)
  | beeper_ACC_CALIBRATION
deriving DecidableEq

/-- What the file reads from its surroundings and never writes.
`CALIBRATING_ACC_CYCLES` is a macro of `sensors/acceleration.h`, `acc_1G` is
the field `acc.acc_1G`, and `featureInflightAccCal` is the value of
`feature(FEATURE_INFLIGHT_ACC_CAL)`; none of the three is defined in the file,
so they are parameters. -/
structure Env where
  CALIBRATING_ACC_CYCLES : Nat
  acc_1G : Int
  featureInflightAccCal : Bool
deriving DecidableEq

/-- The mutable state the file works on.  `accelerationTrims` is
`accelerationTrims->raw`; its element type `flightDynamicsTrims_t` is declared
in a header outside the file and is stored as `int16_t`, the element type of
the buffer `accZero_saved` that snapshots it. -/
structure AccState where
  accSmooth : Vec3
  calibratingA : Nat
  InflightcalibratingA : Nat
  AccInflightCalibrationArmed : Bool
  AccInflightCalibrationMeasurementDone : Bool
  AccInflightCalibrationSavetoEEProm : Bool
  AccInflightCalibrationActive : Bool
  accelerationTrims : Vec3
  rollAndPitchTrims : rollAndPitchTrims_t
  a : Vec3
  b : Vec3
  accZero_saved : Vec3
  angleTrim_saved : rollAndPitchTrims_t
  events : List Event
deriving DecidableEq

/-! ## Operations -/

/-- The function `resetRollAndPitchTrims`: both values become 0. -/
def resetRollAndPitchTrims (_t : rollAndPitchTrims_t) : rollAndPitchTrims_t :=
  { roll := 0, pitch := 0 }

/-- The call `saveConfigAndNotify()`, recorded with the Trims it would persist. -/
def saveConfigAndNotify (st : AccState) : AccState :=
  { st with events :=
      st.events ++ [Event.saveConfigAndNotify st.accelerationTrims st.rollAndPitchTrims] }

/-- The call `beeper(BEEPER_ACC_CALIBRATION)`. -/
def beeper (st : AccState) : AccState :=
  { st with events := st.events ++ [Event.beeper_ACC_CALIBRATION] }

/-- The function `accSetCalibrationCycles`; the argument is a `uint16_t`. -/
def accSetCalibrationCycles (calibrationCyclesRequired : Nat) (st : AccState) : AccState :=
  { st with calibratingA := calibrationCyclesRequired % 65536 }

/-- The function `isAccelerationCalibrationComplete`. -/
def isAccelerationCalibrationComplete (st : AccState) : Bool :=
  st.calibratingA == 0

/-- The function `isOnFinalAccelerationCalibrationCycle`. -/
def isOnFinalAccelerationCalibrationCycle (st : AccState) : Bool :=
  st.calibratingA == 1

/-- The function `isOnFirstAccelerationCalibrationCycle`. -/
def isOnFirstAccelerationCalibrationCycle (env : Env) (st : AccState) : Bool :=
  st.calibratingA == env.CALIBRATING_ACC_CYCLES

/-- Body of the `for` loop of `performAcclerationCalibration` for one axis. -/
def calibrationAxisStep (env : Env) (st : AccState) (axis : Axis) : AccState :=
  let a0 := if isOnFirstAccelerationCalibrationCycle env st then st.a.set axis 0 else st.a
  let a1 := a0.set axis (wrapInt32 (a0.get axis + st.accSmooth.get axis))
  { st with
    a := a1
    accSmooth := st.accSmooth.set axis 0
    accelerationTrims := st.accelerationTrims.set axis 0 }

/-- Lines 137-143 of `performAcclerationCalibration`: the block run on the
final cycle, which stores the averaged offsets, resets the angular trims and
requests persistence. -/
def calibrationStore (env : Env) (st : AccState) : AccState :=
  let n : Int := (env.CALIBRATING_ACC_CYCLES : Int)
  let half : Int := ((env.CALIBRATING_ACC_CYCLES / 2 : Nat) : Int)
  let st1 := { st with
    accelerationTrims :=
      { X := wrapInt16 (Int.tdiv (wrapInt32 (st.a.X + half)) n)
        Y := wrapInt16 (Int.tdiv (wrapInt32 (st.a.Y + half)) n)
        Z := wrapInt16 (wrapInt32 (Int.tdiv (wrapInt32 (st.a.Z + half)) n - env.acc_1G)) } }
  let st2 := { st1 with rollAndPitchTrims := resetRollAndPitchTrims st1.rollAndPitchTrims }
  saveConfigAndNotify st2

/-- The function `performAcclerationCalibration`. -/
def performAcclerationCalibration (env : Env) (st : AccState) : AccState :=
  let st1 := [Axis.X, Axis.Y, Axis.Z].foldl (calibrationAxisStep env) st
  let st2 := if isOnFinalAccelerationCalibrationCycle st1 then calibrationStore env st1 else st1
  { st2 with calibratingA := (st2.calibratingA + 65535) % 65536 }

/-- Body of the `for` loop of `performInflightAccelerationCalibration` for one axis. -/
def inflightAxisStep (st : AccState) (axis : Axis) : AccState :=
  let b0 := if st.InflightcalibratingA = 50 then st.b.set axis 0 else st.b
  let b1 := b0.set axis (wrapInt32 (b0.get axis + st.accSmooth.get axis))
  { st with
    b := b1
    accSmooth := st.accSmooth.set axis 0
    accelerationTrims := st.accelerationTrims.set axis 0 }

/-- Lines 157-163 of `performInflightAccelerationCalibration`: saving the old
zero points before a measurement. -/
def inflightSaveOld (st : AccState) : AccState :=
  if st.InflightcalibratingA = 50 then
    { st with
      accZero_saved :=
        { X := wrapInt16 st.accelerationTrims.X
          Y := wrapInt16 st.accelerationTrims.Y
          Z := wrapInt16 st.accelerationTrims.Z }
      angleTrim_saved := st.rollAndPitchTrims }
  else st

/-- Lines 177-185: the block run when all values are measured. -/
def inflightRecover (st : AccState) : AccState :=
  let st1 := beeper { st with
    AccInflightCalibrationActive := false
    AccInflightCalibrationMeasurementDone := true }
  { st1 with
    accelerationTrims :=
      { X := wrapInt16 st1.accZero_saved.X
        Y := wrapInt16 st1.accZero_saved.Y
        Z := wrapInt16 st1.accZero_saved.Z }
    rollAndPitchTrims := st1.angleTrim_saved }

/-- Lines 164-188: one measurement cycle while `InflightcalibratingA > 0`. -/
def inflightMeasure (st : AccState) : AccState :=
  if st.InflightcalibratingA > 0 then
    let st1 := [Axis.X, Axis.Y, Axis.Z].foldl inflightAxisStep st
    let st2 := if st1.InflightcalibratingA = 1 then inflightRecover st1 else st1
    { st2 with InflightcalibratingA := (st2.InflightcalibratingA + 65535) % 65536 }
  else st

/-- Lines 190-199: the commit of the measured values. -/
def inflightCommit (env : Env) (st : AccState) : AccState :=
  if st.AccInflightCalibrationSavetoEEProm then
    let st1 := { st with AccInflightCalibrationSavetoEEProm := false }
    let st2 := { st1 with
      accelerationTrims :=
        { X := wrapInt16 (Int.tdiv st1.b.X 50)
          Y := wrapInt16 (Int.tdiv st1.b.Y 50)
          Z := wrapInt16 (wrapInt32 (Int.tdiv st1.b.Z 50 - env.acc_1G)) } }
    let st3 := { st2 with rollAndPitchTrims := resetRollAndPitchTrims st2.rollAndPitchTrims }
    saveConfigAndNotify st3
  else st

/-- The function `performInflightAccelerationCalibration`: its three
consecutive `if` statements in source order. -/
def performInflightAccelerationCalibration (env : Env) (st : AccState) : AccState :=
  inflightCommit env (inflightMeasure (inflightSaveOld st))

/-- The function `applyAccelerationTrims`. -/
def applyAccelerationTrims (st : AccState) : AccState :=
  { st with
    accSmooth :=
      { X := wrapInt32 (st.accSmooth.X - st.accelerationTrims.X)
        Y := wrapInt32 (st.accSmooth.Y - st.accelerationTrims.Y)
        Z := wrapInt32 (st.accSmooth.Z - st.accelerationTrims.Z) } }

/-- The function `updateAccelerationReadings`.  `input` is the outcome of lines
213-221: `none` when `acc.read` returns false, `some s` when the read succeeds
and filtering and alignment leave `s` in `accSmooth`. -/
def updateAccelerationReadings (env : Env) (input : Option Vec3) (st : AccState) : AccState :=
  match input with
  | none => st
  | some s =>
    let st1 := { st with accSmooth := s }
    let st2 :=
      if !isAccelerationCalibrationComplete st1 then performAcclerationCalibration env st1
      else st1
    let st3 :=
      if env.featureInflightAccCal then performInflightAccelerationCalibration env st2
      else st2
    applyAccelerationTrims st3

/-- Successive passes of `updateAccelerationReadings`, one per input. -/
def runPasses (env : Env) (st : AccState) (inputs : List (Option Vec3)) : AccState :=
  inputs.foldl (fun s i => updateAccelerationReadings env i s) st

/-- Successive passes in each of which acquisition succeeds. -/
def feed (env : Env) (st : AccState) (samples : List Vec3) : AccState :=
  runPasses env st (samples.map some)

/-- Per-axis sums of a list of samples. -/
def sumSamples (samples : List Vec3) : Vec3 :=
  { X := (samples.map (fun s => s.X)).sum
    Y := (samples.map (fun s => s.Y)).sum
    Z := (samples.map (fun s => s.Z)).sum }

/-! ## Closed forms used to state the results -/

/-- One accumulation `acc[axis] += accSmooth[axis]` on the three axes, after the
optional reset `acc[axis] = 0` of the first cycle of a window. -/
def accumStep (reset : Bool) (acc s : Vec3) : Vec3 :=
  { X := wrapInt32 ((if reset then 0 else acc.X) + s.X)
    Y := wrapInt32 ((if reset then 0 else acc.Y) + s.Y)
    Z := wrapInt32 ((if reset then 0 else acc.Z) + s.Z) }

/-- Content of an accumulator after the passes that consume `samples`, when the
countdown stands at `c` before the first of them and the accumulator is
cleared on the pass that starts with the countdown at `mark`. -/
def windowAccum (mark : Nat) : Nat → Vec3 → List Vec3 → Vec3
  | _, acc, [] => acc
  | c, acc, s :: l => windowAccum mark (c - 1) (accumStep (c == mark) acc s) l

/-- The three offsets the final ground cycle computes from the accumulator. -/
def groundOffsets (env : Env) (acc : Vec3) : Vec3 :=
  { X := wrapInt16 (Int.tdiv (wrapInt32 (acc.X + ((env.CALIBRATING_ACC_CYCLES / 2 : Nat) : Int)))
      (env.CALIBRATING_ACC_CYCLES : Int))
    Y := wrapInt16 (Int.tdiv (wrapInt32 (acc.Y + ((env.CALIBRATING_ACC_CYCLES / 2 : Nat) : Int)))
      (env.CALIBRATING_ACC_CYCLES : Int))
    Z := wrapInt16 (wrapInt32
      (Int.tdiv (wrapInt32 (acc.Z + ((env.CALIBRATING_ACC_CYCLES / 2 : Nat) : Int)))
        (env.CALIBRATING_ACC_CYCLES : Int) - env.acc_1G)) }

/-- The three offsets an in-flight commit computes from the accumulator. -/
def inflightOffsets (env : Env) (acc : Vec3) : Vec3 :=
  { X := wrapInt16 (Int.tdiv acc.X 50)
    Y := wrapInt16 (Int.tdiv acc.Y 50)
    Z := wrapInt16 (wrapInt32 (Int.tdiv acc.Z 50 - env.acc_1G)) }

/-- What `applyAccelerationTrims` publishes when `accSmooth` was zeroed. -/
def negTrims (t : Vec3) : Vec3 :=
  { X := wrapInt32 (0 - t.X), Y := wrapInt32 (0 - t.Y), Z := wrapInt32 (0 - t.Z) }

/-- Componentwise conversion to `int16_t`. -/
def wrapVec16 (t : Vec3) : Vec3 :=
  { X := wrapInt16 t.X, Y := wrapInt16 t.Y, Z := wrapInt16 t.Z }

/-- Componentwise conversion to `int32_t`. -/
def wrapVec32 (t : Vec3) : Vec3 :=
  { X := wrapInt32 t.X, Y := wrapInt32 t.Y, Z := wrapInt32 t.Z }

/-- All three components are `int16_t` values. -/
def vecInInt16 (t : Vec3) : Prop := inInt16 t.X ∧ inInt16 t.Y ∧ inInt16 t.Z

/-- All three components are `int32_t` values. -/
def vecInInt32 (t : Vec3) : Prop := inInt32 t.X ∧ inInt32 t.Y ∧ inInt32 t.Z

instance (t : Vec3) : Decidable (vecInInt16 t) := by unfold vecInInt16; infer_instance

instance (t : Vec3) : Decidable (vecInInt32 t) := by unfold vecInInt32; infer_instance

/-- The in-flight step has nothing to do in this state: the feature is off, or
no window is running and no commit is requested. -/
def inflightInert (env : Env) (st : AccState) : Prop :=
  env.featureInflightAccCal = false ∨
    (st.InflightcalibratingA = 0 ∧ st.AccInflightCalibrationSavetoEEProm = false)

instance (env : Env) (st : AccState) : Decidable (inflightInert env st) := by
  unfold inflightInert; infer_instance

/-- The ground offsets as the specification writes them, over the integers:
`(sum + N/2) / N` per axis with the program's truncating division, the Z axis
reduced by `acc_1G`. -/
def groundAverage (env : Env) (sum : Vec3) : Vec3 :=
  { X := Int.tdiv (sum.X + ((env.CALIBRATING_ACC_CYCLES / 2 : Nat) : Int))
      (env.CALIBRATING_ACC_CYCLES : Int)
    Y := Int.tdiv (sum.Y + ((env.CALIBRATING_ACC_CYCLES / 2 : Nat) : Int))
      (env.CALIBRATING_ACC_CYCLES : Int)
    Z := Int.tdiv (sum.Z + ((env.CALIBRATING_ACC_CYCLES / 2 : Nat) : Int))
      (env.CALIBRATING_ACC_CYCLES : Int) - env.acc_1G }

/-- The in-flight offsets as the specification writes them, over the integers:
`sum / 50` per axis, truncating, the Z axis reduced by `acc_1G`. -/
def inflightAverage (env : Env) (sum : Vec3) : Vec3 :=
  { X := Int.tdiv sum.X 50
    Y := Int.tdiv sum.Y 50
    Z := Int.tdiv sum.Z 50 - env.acc_1G }

/-- The arithmetic of a ground window stays inside the machine types: the sums
with the rounding term added fit `int32_t` and the offsets fit `int16_t`. -/
def groundFits (env : Env) (samples : List Vec3) : Prop :=
  vecInInt32
      { X := (sumSamples samples).X + ((env.CALIBRATING_ACC_CYCLES / 2 : Nat) : Int)
        Y := (sumSamples samples).Y + ((env.CALIBRATING_ACC_CYCLES / 2 : Nat) : Int)
        Z := (sumSamples samples).Z + ((env.CALIBRATING_ACC_CYCLES / 2 : Nat) : Int) } ∧
    vecInInt16 (groundAverage env (sumSamples samples))

instance (env : Env) (samples : List Vec3) : Decidable (groundFits env samples) := by
  unfold groundFits; infer_instance

/-- The arithmetic of an in-flight window and commit stays inside the machine
types: the sums fit `int32_t` and the offsets fit `int16_t`. -/
def inflightFits (env : Env) (samples : List Vec3) : Prop :=
  vecInInt32 (sumSamples samples) ∧ vecInInt16 (inflightAverage env (sumSamples samples))

instance (env : Env) (samples : List Vec3) : Decidable (inflightFits env samples) := by
  unfold inflightFits; infer_instance

/-- The extern variable `InflightcalibratingA` is written by the caller that
arms an in-flight window; the write is outside the file. -/
def armInflight (cycles : Nat) (st : AccState) : AccState :=
  { st with InflightcalibratingA := cycles % 65536 }

/-- The extern flag `AccInflightCalibrationSavetoEEProm` is raised by the caller
that requests the commit; the write is outside the file. -/
def requestInflightCommit (st : AccState) : AccState :=
  { st with AccInflightCalibrationSavetoEEProm := true }

/-- Snapshot of the Trims held after a window that started with the countdown
at `m`: taken on the pass that starts at 50, otherwise the old one. -/
def savedAfter (m : Nat) (st : AccState) : Vec3 :=
  if m = 50 then wrapVec16 st.accelerationTrims else st.accZero_saved

/-- Snapshot of the angular trims held after a window that started at `m`. -/
def angleAfter (m : Nat) (st : AccState) : rollAndPitchTrims_t :=
  if m = 50 then st.rollAndPitchTrims else st.angleTrim_saved

/-- Modelled from the spec: the macro `CALIBRATING_ACC_CYCLES` and the sensor
constant `acc.acc_1G` are defined outside the file; the values are those of the
specification's example scenario (window of 400 cycles, reference gravity 256).
The in-flight feature is enabled. -/
def exampleEnv : Env :=
  { CALIBRATING_ACC_CYCLES := 400, acc_1G := 256, featureInflightAccCal := true }

/-- The example environment with the in-flight feature disabled. -/
def exampleEnvNoInflight : Env :=
  { CALIBRATING_ACC_CYCLES := 400, acc_1G := 256, featureInflightAccCal := false }

/-- The state at program start: `calibratingA = 0` and the zero-initialised
statics of the file; Trims and angular trims zero, no call made yet. -/
def bootState : AccState :=
  { accSmooth := Vec3.zero
    calibratingA := 0
    InflightcalibratingA := 0
    AccInflightCalibrationArmed := false
    AccInflightCalibrationMeasurementDone := false
    AccInflightCalibrationSavetoEEProm := false
    AccInflightCalibrationActive := false
    accelerationTrims := Vec3.zero
    rollAndPitchTrims := { roll := 0, pitch := 0 }
    a := Vec3.zero
    b := Vec3.zero
    accZero_saved := Vec3.zero
    angleTrim_saved := { roll := 0, pitch := 0 }
    events := [] }

/-- A state in flight use: ground calibration complete, Trims `(5, -6, 7)`,
angular trims `(1, -2)`, stale accumulators. -/
def trimmedState : AccState :=
  { bootState with
    accelerationTrims := { X := 5, Y := -6, Z := 7 }
    rollAndPitchTrims := { roll := 1, pitch := -2 }
    a := { X := 9, Y := 9, Z := 9 }
    b := { X := 8, Y := 8, Z := 8 } }

/-- An in-flight window armed with 50 and fed `samples`, then the commit
request and one more pass with the sample `s2`. -/
def commitAfterWindow (env : Env) (st : AccState) (samples : List Vec3) (s2 : Vec3) : AccState :=
  updateAccelerationReadings env (some s2)
    (requestInflightCommit (feed env (armInflight 50 st) samples))

/-- A calibration state machine is armed at the start of the pass. -/
def calibrationArmed (env : Env) (st : AccState) : Prop :=
  0 < st.calibratingA ∨ (env.featureInflightAccCal = true ∧ 0 < st.InflightcalibratingA)

instance (env : Env) (st : AccState) : Decidable (calibrationArmed env st) := by
  unfold calibrationArmed; infer_instance

/-- The state at the start of the last cycle of a ground window that has
consumed 399 samples `(10, 0, 256)`: `calibratingA = 1` and the accumulator
holds `399 * (10, 0, 256)`. -/
def finalCycleState : AccState :=
  { trimmedState with
    calibratingA := 1
    a := { X := 3990, Y := 0, Z := 102144 }
    accelerationTrims := Vec3.zero }

/-- A state with both calibrations armed: ground countdown at 400 and
in-flight countdown at 50. -/
def bothArmedState : AccState :=
  armInflight 50 (accSetCalibrationCycles 400 trimmedState)

/-- The persistence requests among the calls made, in order. -/
def savesOf (events : List Event) : List Event :=
  events.filter (fun e =>
    match e with
    | Event.saveConfigAndNotify _ _ => true
    | Event.beeper_ACC_CALIBRATION => false)

/-! ## The filter stage

`float` values are rationals: the only conversions the file makes are from
`int16_t` to `float`, which is exact, and `lrintf` back to an integer. -/

/-- The functions the pointer `accFilterApplyFn` is set to. -/
inductive filterApplyFnPtr where
  | nullFilterApply
  | biquadFilterApply
deriving DecidableEq

/-- The functions of `common/filter.c` the file calls on a `biquadFilter_t`
(the state type `β`); they are defined outside the file, so they are
parameters.  `biquadFilterApply` returns the filtered value and the advanced
filter state. -/
structure FilterLib (β : Type) where
  biquadFilterInitLPF : β → Nat → Nat → β
  biquadFilterApply : β → ℚ → ℚ × β

/-- The global `accFilterApplyFn` (`none` is the null pointer it holds before
`accelerationFilterInit`) and the static array `accFilter`. -/
structure FilterBank (β : Type) where
  accFilterApplyFn : Option filterApplyFnPtr
  accFilterX : β
  accFilterY : β
  accFilterZ : β

/-- Modelled from the spec: `nullFilterApply` is defined in `common/filter.c`,
which is not part of the source file; with a zero cutoff the filter "degrades
to identity (pass-through)", output sample equal to input sample.  The filter
state is not used. -/
def nullFilterApply {β : Type} (_filter : β) (input : ℚ) : ℚ := input

/-- The function `accelerationFilterInit`; the parameter `acc_cut_hz` is a
`uint8_t`, so the function sees its argument reduced modulo 256. -/
def accelerationFilterInit {β : Type} (lib : FilterLib β) (accSamplingInterval : Nat)
    (acc_cut_hz : Nat) (fb : FilterBank β) : FilterBank β :=
  if acc_cut_hz % 256 = 0 then
    { fb with accFilterApplyFn := some filterApplyFnPtr.nullFilterApply }
  else
    { accFilterApplyFn := some filterApplyFnPtr.biquadFilterApply
      accFilterX :=
        lib.biquadFilterInitLPF fb.accFilterX (acc_cut_hz % 256) accSamplingInterval
      accFilterY :=
        lib.biquadFilterInitLPF fb.accFilterY (acc_cut_hz % 256) accSamplingInterval
      accFilterZ :=
        lib.biquadFilterInitLPF fb.accFilterZ (acc_cut_hz % 256) accSamplingInterval }

/-- The conversion `(float)accADCRaw[axis]` of an `int16_t`: exact, because
every integer of magnitude below `2^24` is a binary32 value. -/
def floatOfInt16 (v : Int) : ℚ := (v : ℚ)

/-- A rational is a finite binary32 value: `m * 2^e` with a 24-bit significand
and an exponent in the binary32 range. -/
def isBinary32 (q : ℚ) : Prop :=
  ∃ m e : Int, |m| < 16777216 ∧ -149 ≤ e ∧ e ≤ 104 ∧ q = (m : ℚ) * (2 : ℚ) ^ e

/-- The function `lrintf` of the C library in the default rounding mode:
the nearest integer, ties to the even one. -/
def lrintf (q : ℚ) : Int :=
  if q - (⌊q⌋ : ℚ) < 1 / 2 then ⌊q⌋
  else if 1 / 2 < q - (⌊q⌋ : ℚ) then ⌊q⌋ + 1
  else if ⌊q⌋ % 2 = 0 then ⌊q⌋
  else ⌊q⌋ + 1

/-- The call `accFilterApplyFn(&accFilter[axis], input)` through the selected
function. -/
def applyFilterFn {β : Type} (lib : FilterLib β) (fn : filterApplyFnPtr) (filter : β)
    (input : ℚ) : ℚ × β :=
  match fn with
  | filterApplyFnPtr.nullFilterApply => (nullFilterApply filter input, filter)
  | filterApplyFnPtr.biquadFilterApply => lib.biquadFilterApply filter input

/-- Lines 217-219 of `updateAccelerationReadings`: the filtered sample stored
in `accSmooth` and the filter bank after the three calls; `none` when the
function pointer is still null. -/
def filterReadings {β : Type} (lib : FilterLib β) (fb : FilterBank β) (accADCRaw : Vec3) :
    Option (Vec3 × FilterBank β) :=
  match fb.accFilterApplyFn with
  | none => none
  | some fn =>
    let rx := applyFilterFn lib fn fb.accFilterX (floatOfInt16 accADCRaw.X)
    let ry := applyFilterFn lib fn fb.accFilterY (floatOfInt16 accADCRaw.Y)
    let rz := applyFilterFn lib fn fb.accFilterZ (floatOfInt16 accADCRaw.Z)
    some ({ X := wrapInt32 (lrintf rx.1), Y := wrapInt32 (lrintf ry.1),
            Z := wrapInt32 (lrintf rz.1) },
          { fb with accFilterX := rx.2, accFilterY := ry.2, accFilterZ := rz.2 })

/-- A filter library for examples: a one-pole state that the biquad functions
reset and replace by the input. -/
def exampleFilterLib : FilterLib ℚ :=
  { biquadFilterInitLPF := fun _ _ _ => 0
    biquadFilterApply := fun state input => ((state + input) / 2, input) }

/-- A filter bank as earlier samples have left it. -/
def exampleFilterBank : FilterBank ℚ :=
  { accFilterApplyFn := none, accFilterX := 17, accFilterY := -3, accFilterZ := 250 }

/-! ## Single-pass lemmas -/

theorem wrapInt32_of_in {v : Int} (h : inInt32 v) : wrapInt32 v = v := by
  unfold inInt32 at h; unfold wrapInt32; omega

theorem wrapInt16_of_in {v : Int} (h : inInt16 v) : wrapInt16 v = v := by
  unfold inInt16 at h; unfold wrapInt16; omega

theorem wrapInt32_add_left (u v : Int) : wrapInt32 (wrapInt32 u + v) = wrapInt32 (u + v) := by
  unfold wrapInt32; omega

theorem wrapInt16_wrapInt32 (v : Int) : wrapInt16 (wrapInt32 v) = wrapInt16 v := by
  unfold wrapInt16 wrapInt32; omega

theorem wrapInt16_idem (v : Int) : wrapInt16 (wrapInt16 v) = wrapInt16 v := by
  unfold wrapInt16; omega

theorem ground_loop (env : Env) (st : AccState) :
    [Axis.X, Axis.Y, Axis.Z].foldl (calibrationAxisStep env) st =
      { st with
        a := accumStep (st.calibratingA == env.CALIBRATING_ACC_CYCLES) st.a st.accSmooth
        accSmooth := Vec3.zero
        accelerationTrims := Vec3.zero } := by
  cases h : (st.calibratingA == env.CALIBRATING_ACC_CYCLES) <;>
  simp [calibrationAxisStep, isOnFirstAccelerationCalibrationCycle, Vec3.set, Vec3.get,
    accumStep, Vec3.zero, h]

theorem inflight_loop (st : AccState) :
    [Axis.X, Axis.Y, Axis.Z].foldl inflightAxisStep st =
      { st with
        b := accumStep (st.InflightcalibratingA == 50) st.b st.accSmooth
        accSmooth := Vec3.zero
        accelerationTrims := Vec3.zero } := by
  by_cases h : st.InflightcalibratingA = 50 <;>
  simp [inflightAxisStep, Vec3.set, Vec3.get, accumStep, Vec3.zero, h]

theorem perform_ground_nonfinal (env : Env) (st : AccState)
    (hc1 : 1 < st.calibratingA) (hc2 : st.calibratingA ≤ 65535) :
    performAcclerationCalibration env st =
      { st with
        accSmooth := Vec3.zero
        calibratingA := st.calibratingA - 1
        a := accumStep (st.calibratingA == env.CALIBRATING_ACC_CYCLES) st.a st.accSmooth
        accelerationTrims := Vec3.zero } := by
  have h1 : st.calibratingA ≠ 1 := by omega
  have h2 : (st.calibratingA + 65535) % 65536 = st.calibratingA - 1 := by omega
  simp only [performAcclerationCalibration, ground_loop, isOnFinalAccelerationCalibrationCycle]
  simp [h1, h2]

theorem perform_ground_final (env : Env) (st : AccState) (hc : st.calibratingA = 1) :
    performAcclerationCalibration env st =
      { st with
        accSmooth := Vec3.zero
        calibratingA := 0
        a := accumStep (st.calibratingA == env.CALIBRATING_ACC_CYCLES) st.a st.accSmooth
        accelerationTrims := groundOffsets env
          (accumStep (st.calibratingA == env.CALIBRATING_ACC_CYCLES) st.a st.accSmooth)
        rollAndPitchTrims := { roll := 0, pitch := 0 }
        events := st.events ++ [Event.saveConfigAndNotify
          (groundOffsets env
            (accumStep (st.calibratingA == env.CALIBRATING_ACC_CYCLES) st.a st.accSmooth))
          { roll := 0, pitch := 0 }] } := by
  have h1 : (st.calibratingA == 1) = true := by simp [hc]
  have h2 : (st.calibratingA + 65535) % 65536 = 0 := by omega
  simp only [performAcclerationCalibration, ground_loop, isOnFinalAccelerationCalibrationCycle,
    h1, if_true, calibrationStore, saveConfigAndNotify, resetRollAndPitchTrims, groundOffsets, h2]

theorem saveOld_eq (st : AccState) :
    inflightSaveOld st =
      { st with
        accZero_saved :=
          if st.InflightcalibratingA = 50 then wrapVec16 st.accelerationTrims
          else st.accZero_saved
        angleTrim_saved :=
          if st.InflightcalibratingA = 50 then st.rollAndPitchTrims else st.angleTrim_saved } := by
  by_cases h50 : st.InflightcalibratingA = 50
  · simp only [inflightSaveOld, if_pos h50, wrapVec16]
  · simp only [inflightSaveOld, if_neg h50]

theorem measure_idle (st : AccState) (h0 : st.InflightcalibratingA = 0) :
    inflightMeasure st = st := by
  simp [inflightMeasure, h0]

theorem measure_nonfinal (st : AccState)
    (hm1 : 1 < st.InflightcalibratingA) (hm2 : st.InflightcalibratingA ≤ 65535) :
    inflightMeasure st =
      { st with
        accSmooth := Vec3.zero
        InflightcalibratingA := st.InflightcalibratingA - 1
        b := accumStep (st.InflightcalibratingA == 50) st.b st.accSmooth
        accelerationTrims := Vec3.zero } := by
  have h0 : st.InflightcalibratingA > 0 := by omega
  have h1 : ¬ st.InflightcalibratingA = 1 := by omega
  have h2 : (st.InflightcalibratingA + 65535) % 65536 = st.InflightcalibratingA - 1 := by omega
  simp only [inflightMeasure, if_pos h0, inflight_loop, if_neg h1, h2]

theorem measure_final (st : AccState) (hm : st.InflightcalibratingA = 1) :
    inflightMeasure st =
      { st with
        accSmooth := Vec3.zero
        InflightcalibratingA := 0
        b := accumStep (st.InflightcalibratingA == 50) st.b st.accSmooth
        accelerationTrims := wrapVec16 st.accZero_saved
        rollAndPitchTrims := st.angleTrim_saved
        AccInflightCalibrationActive := false
        AccInflightCalibrationMeasurementDone := true
        events := st.events ++ [Event.beeper_ACC_CALIBRATION] } := by
  have h0 : st.InflightcalibratingA > 0 := by omega
  have h2 : (st.InflightcalibratingA + 65535) % 65536 = 0 := by omega
  simp only [inflightMeasure, if_pos h0, inflight_loop, if_pos hm, inflightRecover, beeper,
    wrapVec16, h2]

theorem commit_idle (env : Env) (st : AccState)
    (hs : st.AccInflightCalibrationSavetoEEProm = false) :
    inflightCommit env st = st := by
  simp [inflightCommit, hs]

theorem commit_eq (env : Env) (st : AccState)
    (hs : st.AccInflightCalibrationSavetoEEProm = true) :
    inflightCommit env st =
      { st with
        AccInflightCalibrationSavetoEEProm := false
        accelerationTrims := inflightOffsets env st.b
        rollAndPitchTrims := { roll := 0, pitch := 0 }
        events := st.events ++ [Event.saveConfigAndNotify (inflightOffsets env st.b)
          { roll := 0, pitch := 0 }] } := by
  simp only [inflightCommit, hs, if_true, saveConfigAndNotify, resetRollAndPitchTrims,
    inflightOffsets]

theorem perform_inflight_inert (env : Env) (st : AccState)
    (h0 : st.InflightcalibratingA = 0) (hs : st.AccInflightCalibrationSavetoEEProm = false) :
    performInflightAccelerationCalibration env st = st := by
  have h50 : ¬ st.InflightcalibratingA = 50 := by omega
  have e1 : inflightSaveOld st = st := by simp only [inflightSaveOld, if_neg h50]
  rw [performInflightAccelerationCalibration, e1, measure_idle st h0, commit_idle env st hs]

theorem perform_inflight_nonfinal (env : Env) (st : AccState)
    (hm1 : 1 < st.InflightcalibratingA) (hm2 : st.InflightcalibratingA ≤ 65535)
    (hs : st.AccInflightCalibrationSavetoEEProm = false) :
    performInflightAccelerationCalibration env st =
      { st with
        accSmooth := Vec3.zero
        InflightcalibratingA := st.InflightcalibratingA - 1
        b := accumStep (st.InflightcalibratingA == 50) st.b st.accSmooth
        accelerationTrims := Vec3.zero
        accZero_saved :=
          if st.InflightcalibratingA = 50 then wrapVec16 st.accelerationTrims
          else st.accZero_saved
        angleTrim_saved :=
          if st.InflightcalibratingA = 50 then st.rollAndPitchTrims else st.angleTrim_saved } := by
  rw [performInflightAccelerationCalibration, saveOld_eq,
    measure_nonfinal _ (by exact hm1) (by exact hm2), commit_idle _ _ (by exact hs)]

theorem perform_inflight_final (env : Env) (st : AccState)
    (hm : st.InflightcalibratingA = 1)
    (hs : st.AccInflightCalibrationSavetoEEProm = false) :
    performInflightAccelerationCalibration env st =
      { st with
        accSmooth := Vec3.zero
        InflightcalibratingA := 0
        b := accumStep (st.InflightcalibratingA == 50) st.b st.accSmooth
        accelerationTrims := wrapVec16 st.accZero_saved
        rollAndPitchTrims := st.angleTrim_saved
        AccInflightCalibrationActive := false
        AccInflightCalibrationMeasurementDone := true
        events := st.events ++ [Event.beeper_ACC_CALIBRATION] } := by
  have h50 : ¬ st.InflightcalibratingA = 50 := by omega
  have e1 : inflightSaveOld st = st := by simp only [inflightSaveOld, if_neg h50]
  rw [performInflightAccelerationCalibration, e1, measure_final _ hm,
    commit_idle _ _ (by exact hs)]

theorem perform_inflight_commit (env : Env) (st : AccState)
    (hm : st.InflightcalibratingA = 0)
    (hs : st.AccInflightCalibrationSavetoEEProm = true) :
    performInflightAccelerationCalibration env st =
      { st with
        AccInflightCalibrationSavetoEEProm := false
        accelerationTrims := inflightOffsets env st.b
        rollAndPitchTrims := { roll := 0, pitch := 0 }
        events := st.events ++ [Event.saveConfigAndNotify (inflightOffsets env st.b)
          { roll := 0, pitch := 0 }] } := by
  have h50 : ¬ st.InflightcalibratingA = 50 := by omega
  have e1 : inflightSaveOld st = st := by simp only [inflightSaveOld, if_neg h50]
  rw [performInflightAccelerationCalibration, e1, measure_idle st hm, commit_eq env st hs]

theorem apply_zero (st : AccState) (h : st.accSmooth = Vec3.zero) :
    applyAccelerationTrims st = { st with accSmooth := negTrims st.accelerationTrims } := by
  simp only [applyAccelerationTrims, h, Vec3.zero, negTrims]

theorem negTrims_zero : negTrims Vec3.zero = Vec3.zero := by decide

theorem inflight_after (env : Env) (st : AccState) (hin : inflightInert env st) :
    (if env.featureInflightAccCal then performInflightAccelerationCalibration env st else st)
      = st := by
  rcases hin with h | ⟨h0, hs⟩
  · simp [h]
  · simp [perform_inflight_inert env st h0 hs]

theorem update_some (env : Env) (st : AccState) (s : Vec3) :
    updateAccelerationReadings env (some s) st =
      applyAccelerationTrims
        (if env.featureInflightAccCal then
          performInflightAccelerationCalibration env
            (if st.calibratingA = 0 then { st with accSmooth := s }
             else performAcclerationCalibration env { st with accSmooth := s })
         else
            (if st.calibratingA = 0 then { st with accSmooth := s }
             else performAcclerationCalibration env { st with accSmooth := s })) := by
  by_cases hc : st.calibratingA = 0 <;>
  simp [updateAccelerationReadings, isAccelerationCalibrationComplete, hc]

theorem update_ground_nonfinal (env : Env) (st : AccState) (s : Vec3)
    (hc1 : 1 < st.calibratingA) (hc2 : st.calibratingA ≤ 65535)
    (hin : inflightInert env st) :
    updateAccelerationReadings env (some s) st =
      { st with
        accSmooth := Vec3.zero
        calibratingA := st.calibratingA - 1
        a := accumStep (st.calibratingA == env.CALIBRATING_ACC_CYCLES) st.a s
        accelerationTrims := Vec3.zero } := by
  have hne : ¬ st.calibratingA = 0 := by omega
  have hp := perform_ground_nonfinal env { st with accSmooth := s } hc1 hc2
  rw [update_some]
  simp only [if_neg hne]
  rw [hp, inflight_after env _ (by simpa [inflightInert] using hin), apply_zero _ rfl]
  simp only [negTrims_zero]

theorem update_ground_final (env : Env) (st : AccState) (s : Vec3)
    (hc : st.calibratingA = 1) (hin : inflightInert env st) :
    updateAccelerationReadings env (some s) st =
      { st with
        accSmooth := negTrims (groundOffsets env
          (accumStep (st.calibratingA == env.CALIBRATING_ACC_CYCLES) st.a s))
        calibratingA := 0
        a := accumStep (st.calibratingA == env.CALIBRATING_ACC_CYCLES) st.a s
        accelerationTrims := groundOffsets env
          (accumStep (st.calibratingA == env.CALIBRATING_ACC_CYCLES) st.a s)
        rollAndPitchTrims := { roll := 0, pitch := 0 }
        events := st.events ++ [Event.saveConfigAndNotify
          (groundOffsets env
            (accumStep (st.calibratingA == env.CALIBRATING_ACC_CYCLES) st.a s))
          { roll := 0, pitch := 0 }] } := by
  have hne : ¬ st.calibratingA = 0 := by omega
  have hp := perform_ground_final env { st with accSmooth := s } hc
  rw [update_some]
  simp only [if_neg hne]
  rw [hp, inflight_after env _ (by simpa [inflightInert] using hin), apply_zero _ rfl]

theorem update_inflight_nonfinal (env : Env) (st : AccState) (s : Vec3)
    (hc : st.calibratingA = 0) (hf : env.featureInflightAccCal = true)
    (hm1 : 1 < st.InflightcalibratingA) (hm2 : st.InflightcalibratingA ≤ 65535)
    (hs : st.AccInflightCalibrationSavetoEEProm = false) :
    updateAccelerationReadings env (some s) st =
      { st with
        accSmooth := Vec3.zero
        InflightcalibratingA := st.InflightcalibratingA - 1
        b := accumStep (st.InflightcalibratingA == 50) st.b s
        accelerationTrims := Vec3.zero
        accZero_saved :=
          if st.InflightcalibratingA = 50 then wrapVec16 st.accelerationTrims
          else st.accZero_saved
        angleTrim_saved :=
          if st.InflightcalibratingA = 50 then st.rollAndPitchTrims else st.angleTrim_saved } := by
  have hp := perform_inflight_nonfinal env { st with accSmooth := s } hm1 hm2 hs
  rw [update_some]
  simp only [if_pos hc, hf, if_true]
  rw [hp, apply_zero _ rfl]
  simp only [negTrims_zero]

theorem update_inflight_final (env : Env) (st : AccState) (s : Vec3)
    (hc : st.calibratingA = 0) (hf : env.featureInflightAccCal = true)
    (hm : st.InflightcalibratingA = 1)
    (hs : st.AccInflightCalibrationSavetoEEProm = false) :
    updateAccelerationReadings env (some s) st =
      { st with
        accSmooth := negTrims (wrapVec16 st.accZero_saved)
        InflightcalibratingA := 0
        b := accumStep (st.InflightcalibratingA == 50) st.b s
        accelerationTrims := wrapVec16 st.accZero_saved
        rollAndPitchTrims := st.angleTrim_saved
        AccInflightCalibrationActive := false
        AccInflightCalibrationMeasurementDone := true
        events := st.events ++ [Event.beeper_ACC_CALIBRATION] } := by
  have hp := perform_inflight_final env { st with accSmooth := s } hm hs
  rw [update_some]
  simp only [if_pos hc, hf, if_true]
  rw [hp, apply_zero _ rfl]

theorem update_commit (env : Env) (st : AccState) (s : Vec3)
    (hc : st.calibratingA = 0) (hf : env.featureInflightAccCal = true)
    (hm : st.InflightcalibratingA = 0)
    (hs : st.AccInflightCalibrationSavetoEEProm = true) :
    updateAccelerationReadings env (some s) st =
      { st with
        accSmooth :=
          { X := wrapInt32 (s.X - (inflightOffsets env st.b).X)
            Y := wrapInt32 (s.Y - (inflightOffsets env st.b).Y)
            Z := wrapInt32 (s.Z - (inflightOffsets env st.b).Z) }
        AccInflightCalibrationSavetoEEProm := false
        accelerationTrims := inflightOffsets env st.b
        rollAndPitchTrims := { roll := 0, pitch := 0 }
        events := st.events ++ [Event.saveConfigAndNotify (inflightOffsets env st.b)
          { roll := 0, pitch := 0 }] } := by
  have hp := perform_inflight_commit env { st with accSmooth := s } hm hs
  rw [update_some]
  simp only [if_pos hc, hf, if_true]
  rw [hp]
  simp only [applyAccelerationTrims]

/-! ## Windows of several passes -/

theorem feed_nil (env : Env) (st : AccState) : feed env st [] = st := rfl

theorem feed_cons (env : Env) (st : AccState) (s : Vec3) (l : List Vec3) :
    feed env st (s :: l) = feed env (updateAccelerationReadings env (some s) st) l := rfl

theorem feed_append (env : Env) (st : AccState) (l1 l2 : List Vec3) :
    feed env st (l1 ++ l2) = feed env (feed env st l1) l2 := by
  simp [feed, runPasses, List.foldl_append]

theorem ground_running (env : Env) (l : List Vec3) :
    ∀ (s : Vec3) (st : AccState), l.length + 1 < st.calibratingA →
      st.calibratingA ≤ 65535 → inflightInert env st →
      feed env st (s :: l) =
        { st with
          accSmooth := Vec3.zero
          calibratingA := st.calibratingA - (l.length + 1)
          a := windowAccum env.CALIBRATING_ACC_CYCLES st.calibratingA st.a (s :: l)
          accelerationTrims := Vec3.zero } := by
  induction l with
  | nil =>
    intro s st h1 h2 hin
    rw [feed_cons, feed_nil, update_ground_nonfinal env st s (by simpa using h1) h2 hin]
    rfl
  | cons s2 l2 ih =>
    intro s st h1 h2 hin
    have hlen : l2.length + 1 + 1 < st.calibratingA := by simpa using h1
    rw [feed_cons, update_ground_nonfinal env st s (by omega) h2 hin]
    rw [ih s2 _ (by show l2.length + 1 < st.calibratingA - 1; omega)
      (by show st.calibratingA - 1 ≤ 65535; omega) (by simpa [inflightInert] using hin)]
    have e : st.calibratingA - 1 - (l2.length + 1) = st.calibratingA - (l2.length + 1 + 1) := by
      omega
    simp only [List.length_cons, e]
    rfl

theorem ground_full (env : Env) (l : List Vec3) :
    ∀ (s : Vec3) (st : AccState), l.length + 1 = st.calibratingA →
      st.calibratingA ≤ 65535 → inflightInert env st →
      feed env st (s :: l) =
        { st with
          accSmooth := negTrims (groundOffsets env
            (windowAccum env.CALIBRATING_ACC_CYCLES st.calibratingA st.a (s :: l)))
          calibratingA := 0
          a := windowAccum env.CALIBRATING_ACC_CYCLES st.calibratingA st.a (s :: l)
          accelerationTrims := groundOffsets env
            (windowAccum env.CALIBRATING_ACC_CYCLES st.calibratingA st.a (s :: l))
          rollAndPitchTrims := { roll := 0, pitch := 0 }
          events := st.events ++ [Event.saveConfigAndNotify
            (groundOffsets env
              (windowAccum env.CALIBRATING_ACC_CYCLES st.calibratingA st.a (s :: l)))
            { roll := 0, pitch := 0 }] } := by
  induction l with
  | nil =>
    intro s st h1 _ hin
    rw [feed_cons, feed_nil, update_ground_final env st s (by simpa using h1.symm) hin]
    rfl
  | cons s2 l2 ih =>
    intro s st h1 h2 hin
    have hlen : l2.length + 1 + 1 = st.calibratingA := by simpa using h1
    rw [feed_cons, update_ground_nonfinal env st s (by omega) h2 hin]
    rw [ih s2 _ (by show l2.length + 1 = st.calibratingA - 1; omega)
      (by show st.calibratingA - 1 ≤ 65535; omega) (by simpa [inflightInert] using hin)]
    rfl

theorem inflight_running (env : Env) (hf : env.featureInflightAccCal = true) (l : List Vec3) :
    ∀ (s : Vec3) (st : AccState), st.calibratingA = 0 →
      l.length + 1 < st.InflightcalibratingA → st.InflightcalibratingA ≤ 50 →
      st.AccInflightCalibrationSavetoEEProm = false →
      feed env st (s :: l) =
        { st with
          accSmooth := Vec3.zero
          InflightcalibratingA := st.InflightcalibratingA - (l.length + 1)
          b := windowAccum 50 st.InflightcalibratingA st.b (s :: l)
          accelerationTrims := Vec3.zero
          accZero_saved := savedAfter st.InflightcalibratingA st
          angleTrim_saved := angleAfter st.InflightcalibratingA st } := by
  induction l with
  | nil =>
    intro s st hc h1 h2 hs
    rw [feed_cons, feed_nil, update_inflight_nonfinal env st s hc hf (by simpa using h1)
      (by omega) hs]
    rfl
  | cons s2 l2 ih =>
    intro s st hc h1 h2 hs
    have hlen : l2.length + 1 + 1 < st.InflightcalibratingA := by simpa using h1
    rw [feed_cons, update_inflight_nonfinal env st s hc hf (by omega) (by omega) hs]
    rw [ih s2 _ (by exact hc) (by show l2.length + 1 < st.InflightcalibratingA - 1; omega)
      (by show st.InflightcalibratingA - 1 ≤ 50; omega) (by exact hs)]
    have e : st.InflightcalibratingA - 1 - (l2.length + 1)
        = st.InflightcalibratingA - (l2.length + 1 + 1) := by omega
    have e50 : ¬ st.InflightcalibratingA - 1 = 50 := by omega
    simp only [List.length_cons, e, savedAfter, angleAfter, if_neg e50]
    rfl

theorem inflight_full (env : Env) (hf : env.featureInflightAccCal = true) (l : List Vec3) :
    ∀ (s : Vec3) (st : AccState), st.calibratingA = 0 →
      l.length + 1 = st.InflightcalibratingA → st.InflightcalibratingA ≤ 50 →
      st.AccInflightCalibrationSavetoEEProm = false →
      feed env st (s :: l) =
        { st with
          accSmooth := negTrims (wrapVec16 (savedAfter st.InflightcalibratingA st))
          InflightcalibratingA := 0
          b := windowAccum 50 st.InflightcalibratingA st.b (s :: l)
          accelerationTrims := wrapVec16 (savedAfter st.InflightcalibratingA st)
          rollAndPitchTrims := angleAfter st.InflightcalibratingA st
          AccInflightCalibrationActive := false
          AccInflightCalibrationMeasurementDone := true
          accZero_saved := savedAfter st.InflightcalibratingA st
          angleTrim_saved := angleAfter st.InflightcalibratingA st
          events := st.events ++ [Event.beeper_ACC_CALIBRATION] } := by
  induction l with
  | nil =>
    intro s st hc h1 _ hs
    have h50 : ¬ st.InflightcalibratingA = 50 := by simp at h1; omega
    rw [feed_cons, feed_nil, update_inflight_final env st s hc hf (by simpa using h1.symm) hs]
    simp only [savedAfter, angleAfter, if_neg h50]
    rfl
  | cons s2 l2 ih =>
    intro s st hc h1 h2 hs
    have hlen : l2.length + 1 + 1 = st.InflightcalibratingA := by simpa using h1
    rw [feed_cons, update_inflight_nonfinal env st s hc hf (by omega) (by omega) hs]
    rw [ih s2 _ (by exact hc) (by show l2.length + 1 = st.InflightcalibratingA - 1; omega)
      (by show st.InflightcalibratingA - 1 ≤ 50; omega) (by exact hs)]
    have e50 : ¬ st.InflightcalibratingA - 1 = 50 := by omega
    simp only [savedAfter, angleAfter, if_neg e50]
    rfl

/-! ## The accumulator holds the sum of the window -/

theorem windowAccum_below (mark : Nat) (l : List Vec3) :
    ∀ (c : Nat) (x y z : Int), c < mark →
      windowAccum mark c ⟨wrapInt32 x, wrapInt32 y, wrapInt32 z⟩ l =
        ⟨wrapInt32 (x + (sumSamples l).X), wrapInt32 (y + (sumSamples l).Y),
          wrapInt32 (z + (sumSamples l).Z)⟩ := by
  induction l with
  | nil => intro c x y z _; simp [windowAccum, sumSamples]
  | cons s l ih =>
    intro c x y z hc
    have hne : (c == mark) = false := by simp; omega
    simp only [windowAccum, accumStep, hne, wrapInt32_add_left]
    rw [show (if false = true then (0:Int) else wrapInt32 x) = wrapInt32 x from rfl,
      show (if false = true then (0:Int) else wrapInt32 y) = wrapInt32 y from rfl,
      show (if false = true then (0:Int) else wrapInt32 z) = wrapInt32 z from rfl]
    simp only [wrapInt32_add_left]
    rw [ih (c - 1) (x + s.X) (y + s.Y) (z + s.Z) (by omega)]
    simp [sumSamples, add_assoc]

theorem windowAccum_armed (mark : Nat) (hmark : 0 < mark) (acc s : Vec3) (l : List Vec3) :
    windowAccum mark mark acc (s :: l) = wrapVec32 (sumSamples (s :: l)) := by
  have h := windowAccum_below mark l (mark - 1) (0 + s.X) (0 + s.Y) (0 + s.Z) (by omega)
  simp only [windowAccum, accumStep, beq_self_eq_true, if_true]
  rw [h]
  simp [wrapVec32, sumSamples]

theorem groundOffsets_of_fits (env : Env) (samples : List Vec3) (h : groundFits env samples) :
    groundOffsets env (wrapVec32 (sumSamples samples)) = groundAverage env (sumSamples samples) := by
  obtain ⟨⟨hx, hy, hz⟩, ⟨ax, ay, az⟩⟩ := h
  simp only [groundAverage] at ax ay az
  simp only [groundOffsets, wrapVec32, groundAverage, wrapInt32_add_left, wrapInt16_wrapInt32,
    wrapInt32_of_in hx, wrapInt32_of_in hy, wrapInt32_of_in hz, wrapInt16_of_in ax,
    wrapInt16_of_in ay, wrapInt16_of_in az]

theorem inflightOffsets_of_fits (env : Env) (samples : List Vec3) (h : inflightFits env samples) :
    inflightOffsets env (wrapVec32 (sumSamples samples))
      = inflightAverage env (sumSamples samples) := by
  obtain ⟨⟨hx, hy, hz⟩, ⟨ax, ay, az⟩⟩ := h
  simp only [inflightAverage] at ax ay az
  simp only [inflightOffsets, wrapVec32, inflightAverage, wrapInt16_wrapInt32,
    wrapInt32_of_in hx, wrapInt32_of_in hy, wrapInt32_of_in hz, wrapInt16_of_in ax,
    wrapInt16_of_in ay, wrapInt16_of_in az]

/-- A ground window armed with `CALIBRATING_ACC_CYCLES`, in closed form. -/
theorem ground_window (env : Env) (st : AccState) (samples : List Vec3)
    (hN : 0 < env.CALIBRATING_ACC_CYCLES) (hN16 : env.CALIBRATING_ACC_CYCLES ≤ 65535)
    (hlen : samples.length = env.CALIBRATING_ACC_CYCLES)
    (hcal : st.calibratingA = env.CALIBRATING_ACC_CYCLES)
    (hin : inflightInert env st) :
    feed env st samples =
      { st with
        accSmooth := negTrims (groundOffsets env (wrapVec32 (sumSamples samples)))
        calibratingA := 0
        a := wrapVec32 (sumSamples samples)
        accelerationTrims := groundOffsets env (wrapVec32 (sumSamples samples))
        rollAndPitchTrims := { roll := 0, pitch := 0 }
        events := st.events ++ [Event.saveConfigAndNotify
          (groundOffsets env (wrapVec32 (sumSamples samples))) { roll := 0, pitch := 0 }] } := by
  cases samples with
  | nil => simp at hlen; omega
  | cons s l =>
    rw [ground_full env l s st (by simp at hlen; omega) (by omega) hin, hcal,
      windowAccum_armed _ hN]

theorem sumSamples_replicate (n : Nat) (s : Vec3) :
    sumSamples (List.replicate n s) = ⟨n * s.X, n * s.Y, n * s.Z⟩ := by
  simp [sumSamples, List.map_replicate, List.sum_replicate, nsmul_eq_mul]

theorem sumSamples_cons (s : Vec3) (l : List Vec3) :
    sumSamples (s :: l) =
      ⟨s.X + (sumSamples l).X, s.Y + (sumSamples l).Y, s.Z + (sumSamples l).Z⟩ := by
  simp [sumSamples]

/-! ## The countdown of the ground calibration -/

theorem saveOld_calibratingA (st : AccState) :
    (inflightSaveOld st).calibratingA = st.calibratingA := by
  unfold inflightSaveOld; split <;> rfl

theorem measure_calibratingA (st : AccState) :
    (inflightMeasure st).calibratingA = st.calibratingA := by
  unfold inflightMeasure
  split
  · simp only [inflight_loop]
    split <;> rfl
  · rfl

theorem commit_calibratingA (env : Env) (st : AccState) :
    (inflightCommit env st).calibratingA = st.calibratingA := by
  unfold inflightCommit; split <;> rfl

theorem performInflight_calibratingA (env : Env) (st : AccState) :
    (performInflightAccelerationCalibration env st).calibratingA = st.calibratingA := by
  rw [performInflightAccelerationCalibration, commit_calibratingA, measure_calibratingA,
    saveOld_calibratingA]

theorem performGround_calibratingA (env : Env) (st : AccState) :
    (performAcclerationCalibration env st).calibratingA = (st.calibratingA + 65535) % 65536 := by
  simp only [performAcclerationCalibration, ground_loop]
  split <;> rfl

theorem update_calibratingA (env : Env) (st : AccState) (s : Vec3)
    (h : st.calibratingA ≤ 65535) :
    (updateAccelerationReadings env (some s) st).calibratingA = st.calibratingA - 1 := by
  rw [update_some]
  have e : (applyAccelerationTrims
      (if env.featureInflightAccCal then
        performInflightAccelerationCalibration env
          (if st.calibratingA = 0 then { st with accSmooth := s }
           else performAcclerationCalibration env { st with accSmooth := s })
       else
          (if st.calibratingA = 0 then { st with accSmooth := s }
           else performAcclerationCalibration env { st with accSmooth := s }))).calibratingA
      = (if st.calibratingA = 0 then { st with accSmooth := s }
           else performAcclerationCalibration env { st with accSmooth := s }).calibratingA := by
    cases env.featureInflightAccCal
    · rfl
    · simp only [if_true]
      exact performInflight_calibratingA env _
  rw [e]
  by_cases hc : st.calibratingA = 0
  · simp only [if_pos hc]; show st.calibratingA = st.calibratingA - 1; omega
  · simp only [if_neg hc, performGround_calibratingA]
    show (st.calibratingA + 65535) % 65536 = st.calibratingA - 1
    omega

theorem feed_calibratingA (env : Env) (l : List Vec3) :
    ∀ st : AccState, st.calibratingA ≤ 65535 →
      (feed env st l).calibratingA = st.calibratingA - l.length := by
  induction l with
  | nil => intro st _; rfl
  | cons s l ih =>
    intro st h
    have h1 := update_calibratingA env st s h
    rw [feed_cons, ih _ (by omega), h1, List.length_cons]
    omega

/-! ## Ground calibration: results -/

/-- C1, counterexample (ground calibration result).  With `N = 400` and
`acc_1G = 256`, a window of 400 samples `(32767, -32768, -32768)` leaves
`Trims.raw = (32767, -32767, 32513)`, whereas the formula of the claim gives
`(32767, -32767, -33023)`: the Z value `-32767 - 256` is not an `int16_t` and
is stored reduced modulo `2^16`. -/
theorem ground_offset_outside_int16 :
    (feed exampleEnv (accSetCalibrationCycles 400 trimmedState)
      (List.replicate 400 ⟨32767, -32768, -32768⟩)).accelerationTrims
        = ⟨32767, -32767, 32513⟩ ∧
    groundAverage exampleEnv (sumSamples (List.replicate 400 ⟨32767, -32768, -32768⟩))
        = ⟨32767, -32767, -33023⟩ := by
  rw [ground_window exampleEnv (accSetCalibrationCycles 400 trimmedState)
    (List.replicate 400 ⟨32767, -32768, -32768⟩) (by decide) (by decide)
    (List.length_replicate _ _) (by decide) (by decide), sumSamples_replicate]
  decide

/-- C1, amended (ground calibration result).  A window armed with
`N = CALIBRATING_ACC_CYCLES` (`calibratingA = N`, in-flight calibration idle,
no commit requested) and fed `N` samples ends, for every sample sequence, with
the Trims the final cycle computes in machine arithmetic: per axis the sum
held in the `int32_t` accumulator, plus `N/2`, divided by `N` with the
truncating division of the program, the Z axis reduced by `acc_1G`, each value
converted to the `int16_t` of the Trims; roll and pitch are both 0.  The Trims
are the same from every other state armed in the same way, so they depend
neither on the accumulator's prior content nor on the pre-arm Trims.  When the
sums with the rounding term fit `int32_t` and the three values fit `int16_t`
(`groundFits`) the Trims are exactly
`((Σx + N/2)/N, (Σy + N/2)/N, (Σz + N/2)/N - acc_1G)`. -/
theorem ground_calibration_result (env : Env) (st : AccState) (samples : List Vec3)
    (hN : 0 < env.CALIBRATING_ACC_CYCLES) (hN16 : env.CALIBRATING_ACC_CYCLES ≤ 65535)
    (hlen : samples.length = env.CALIBRATING_ACC_CYCLES)
    (hcal : st.calibratingA = env.CALIBRATING_ACC_CYCLES)
    (hidle : st.InflightcalibratingA = 0)
    (hnc : st.AccInflightCalibrationSavetoEEProm = false) :
    (feed env st samples).accelerationTrims
      = groundOffsets env (wrapVec32 (sumSamples samples)) ∧
    (feed env st samples).rollAndPitchTrims = { roll := 0, pitch := 0 } ∧
    (∀ st2 : AccState, st2.calibratingA = env.CALIBRATING_ACC_CYCLES →
      st2.InflightcalibratingA = 0 → st2.AccInflightCalibrationSavetoEEProm = false →
      (feed env st2 samples).accelerationTrims = (feed env st samples).accelerationTrims) ∧
    (groundFits env samples →
      (feed env st samples).accelerationTrims = groundAverage env (sumSamples samples)) := by
  have key : ∀ st2 : AccState, st2.calibratingA = env.CALIBRATING_ACC_CYCLES →
      st2.InflightcalibratingA = 0 → st2.AccInflightCalibrationSavetoEEProm = false →
      (feed env st2 samples).accelerationTrims
        = groundOffsets env (wrapVec32 (sumSamples samples)) := by
    intro st2 h1 h2 h3
    rw [ground_window env st2 samples hN hN16 hlen h1 (Or.inr ⟨h2, h3⟩)]
  refine ⟨key st hcal hidle hnc, ?_, ?_, ?_⟩
  · rw [ground_window env st samples hN hN16 hlen hcal (Or.inr ⟨hidle, hnc⟩)]
  · intro st2 h1 h2 h3
    rw [key st2 h1 h2 h3, key st hcal hidle hnc]
  · intro hfit
    rw [key st hcal hidle hnc]
    exact groundOffsets_of_fits env samples hfit

theorem fits_example_window : groundFits exampleEnv (List.replicate 400 ⟨10, -20, 500⟩) := by
  unfold groundFits
  rw [sumSamples_replicate]
  decide

/-- Witness for C1 (amended): 400 samples `(10, -20, 500)` with `acc_1G = 256`,
from a state with Trims `(5, -6, 7)` and a stale accumulator, give Trims
`(10, -19, 244)` and zero angular trims. -/
theorem ground_calibration_result_witness :
    (feed exampleEnv (accSetCalibrationCycles 400 trimmedState)
      (List.replicate 400 ⟨10, -20, 500⟩)).accelerationTrims = ⟨10, -19, 244⟩ ∧
    (feed exampleEnv (accSetCalibrationCycles 400 trimmedState)
      (List.replicate 400 ⟨10, -20, 500⟩)).rollAndPitchTrims = { roll := 0, pitch := 0 } := by
  have h := ground_calibration_result exampleEnv (accSetCalibrationCycles 400 trimmedState)
    (List.replicate 400 ⟨10, -20, 500⟩) (by decide) (by decide) (List.length_replicate _ _)
    (by decide) (by decide) (by decide)
  have h4 := h.2.2.2 fits_example_window
  rw [sumSamples_replicate] at h4
  exact ⟨h4, h.2.1⟩

/-- C2 (ground calibration of a constant input), at a failing input: with
`N = 400` and `acc_1G = 256`, feeding the constant sample `(-5, 3, 500)` on
each of the 400 passes leaves `Trims.raw = (-4, 3, 244)`; the X offset is not
the sample value `-5`. -/
theorem ground_constant_negative_sample :
    (feed exampleEnv (accSetCalibrationCycles 400 trimmedState)
      (List.replicate 400 ⟨-5, 3, 500⟩)).accelerationTrims = ⟨-4, 3, 244⟩ := by
  rw [ground_window exampleEnv (accSetCalibrationCycles 400 trimmedState)
    (List.replicate 400 ⟨-5, 3, 500⟩) (by decide) (by decide) (List.length_replicate _ _)
    (by decide) (by decide), sumSamples_replicate]
  decide

/-- C3 (ground calibration rounds half-up), at a failing input: with `N = 400`
a window whose X samples sum to `S = -201` stores the X offset `0`, whereas
`S/N = -0.5025` rounded to nearest is `-1` and the mathematical floor of
`(S + N/2) / N` is `-1`. -/
theorem ground_rounding_negative_sum :
    (sumSamples (⟨-201, 0, 256⟩ :: List.replicate 399 ⟨0, 0, 256⟩)).X = -201 ∧
    (feed exampleEnv (accSetCalibrationCycles 400 trimmedState)
      (⟨-201, 0, 256⟩ :: List.replicate 399 ⟨0, 0, 256⟩)).accelerationTrims.X = 0 ∧
    Int.fdiv (-201 + 200) 400 = -1 := by
  have hlen : (⟨-201, 0, 256⟩ :: List.replicate 399 (⟨0, 0, 256⟩ : Vec3)).length
      = exampleEnv.CALIBRATING_ACC_CYCLES := by
    rw [List.length_cons, List.length_replicate]; rfl
  rw [ground_window exampleEnv (accSetCalibrationCycles 400 trimmedState)
    (⟨-201, 0, 256⟩ :: List.replicate 399 ⟨0, 0, 256⟩) (by decide) (by decide) hlen
    (by decide) (by decide), sumSamples_cons, sumSamples_replicate]
  decide

/-- C4 (ground calibration lasts exactly the armed number of passes).  After
`accSetCalibrationCycles n` with `1 ≤ n ≤ 65535` and `k` passes in which
acquisition succeeds, `isAccelerationCalibrationComplete` is true exactly when
`n ≤ k`: false for every `k < n`, true for `k = n` and on all later passes,
whatever the samples and whatever the rest of the state. -/
theorem ground_calibration_duration (env : Env) (st : AccState) (n : Nat)
    (samples : List Vec3) (h1 : 1 ≤ n) (h2 : n ≤ 65535) :
    isAccelerationCalibrationComplete (feed env (accSetCalibrationCycles n st) samples)
      = decide (n ≤ samples.length) := by
  have hn : n % 65536 = n := by omega
  have h := feed_calibratingA env samples (accSetCalibrationCycles n st)
    (by show n % 65536 ≤ 65535; omega)
  have h3 : (accSetCalibrationCycles n st).calibratingA = n := hn
  rw [h3] at h
  simp only [isAccelerationCalibrationComplete, h]
  by_cases hk : n ≤ samples.length
  · have : n - samples.length = 0 := by omega
    simp [this, hk]
  · have : n - samples.length ≠ 0 := by omega
    simp [this, hk]

/-- Witness for C4: armed with 3, the calibration is not complete after 2
passes and is complete after 3 and after 4. -/
theorem ground_calibration_duration_witness :
    isAccelerationCalibrationComplete (feed exampleEnv (accSetCalibrationCycles 3 trimmedState)
        [⟨1, 2, 3⟩, ⟨4, 5, 6⟩]) = false ∧
    isAccelerationCalibrationComplete (feed exampleEnv (accSetCalibrationCycles 3 trimmedState)
        [⟨1, 2, 3⟩, ⟨4, 5, 6⟩, ⟨7, 8, 9⟩]) = true ∧
    isAccelerationCalibrationComplete (feed exampleEnv (accSetCalibrationCycles 3 trimmedState)
        [⟨1, 2, 3⟩, ⟨4, 5, 6⟩, ⟨7, 8, 9⟩, ⟨1, 1, 1⟩]) = true :=
  ⟨ground_calibration_duration exampleEnv trimmedState 3 [⟨1, 2, 3⟩, ⟨4, 5, 6⟩]
      (by decide) (by decide),
   ground_calibration_duration exampleEnv trimmedState 3 [⟨1, 2, 3⟩, ⟨4, 5, 6⟩, ⟨7, 8, 9⟩]
      (by decide) (by decide),
   ground_calibration_duration exampleEnv trimmedState 3
      [⟨1, 2, 3⟩, ⟨4, 5, 6⟩, ⟨7, 8, 9⟩, ⟨1, 1, 1⟩] (by decide) (by decide)⟩

/-! ## In-flight calibration: results -/

theorem wrapVec16_idem (v : Vec3) : wrapVec16 (wrapVec16 v) = wrapVec16 v := by
  simp only [wrapVec16, wrapInt16_idem]

theorem wrapVec16_of_in (v : Vec3) (h : vecInInt16 v) : wrapVec16 v = v := by
  obtain ⟨hx, hy, hz⟩ := h
  simp only [wrapVec16, wrapInt16_of_in hx, wrapInt16_of_in hy, wrapInt16_of_in hz]

/-- An in-flight window armed with 50, in closed form. -/
theorem inflight_window (env : Env) (hf : env.featureInflightAccCal = true) (st : AccState)
    (samples : List Vec3) (hlen : samples.length = 50) (hc : st.calibratingA = 0)
    (hm : st.InflightcalibratingA = 50)
    (hs : st.AccInflightCalibrationSavetoEEProm = false) :
    feed env st samples =
      { st with
        accSmooth := negTrims (wrapVec16 st.accelerationTrims)
        InflightcalibratingA := 0
        b := wrapVec32 (sumSamples samples)
        accelerationTrims := wrapVec16 st.accelerationTrims
        AccInflightCalibrationActive := false
        AccInflightCalibrationMeasurementDone := true
        accZero_saved := wrapVec16 st.accelerationTrims
        angleTrim_saved := st.rollAndPitchTrims
        events := st.events ++ [Event.beeper_ACC_CALIBRATION] } := by
  cases samples with
  | nil => simp at hlen
  | cons s l =>
    rw [inflight_full env hf l s st hc (by simp at hlen; omega) (by omega) hs, hm,
      windowAccum_armed 50 (by decide)]
    simp only [savedAfter, angleAfter, if_true, wrapVec16_idem]

theorem armInflight_window (env : Env) (hf : env.featureInflightAccCal = true) (st : AccState)
    (samples : List Vec3) (hlen : samples.length = 50) (hc : st.calibratingA = 0)
    (hs : st.AccInflightCalibrationSavetoEEProm = false) :
    feed env (armInflight 50 st) samples =
      { st with
        accSmooth := negTrims (wrapVec16 st.accelerationTrims)
        InflightcalibratingA := 0
        b := wrapVec32 (sumSamples samples)
        accelerationTrims := wrapVec16 st.accelerationTrims
        AccInflightCalibrationActive := false
        AccInflightCalibrationMeasurementDone := true
        accZero_saved := wrapVec16 st.accelerationTrims
        angleTrim_saved := st.rollAndPitchTrims
        events := st.events ++ [Event.beeper_ACC_CALIBRATION] } := by
  rw [inflight_window env hf (armInflight 50 st) samples hlen hc rfl hs]
  rfl

theorem commitAfterWindow_eq (env : Env) (hf : env.featureInflightAccCal = true) (st : AccState)
    (samples : List Vec3) (s2 : Vec3) (hlen : samples.length = 50) (hc : st.calibratingA = 0)
    (hs : st.AccInflightCalibrationSavetoEEProm = false) :
    commitAfterWindow env st samples s2 =
      { feed env (armInflight 50 st) samples with
        accSmooth :=
          { X := wrapInt32 (s2.X - (inflightOffsets env (wrapVec32 (sumSamples samples))).X)
            Y := wrapInt32 (s2.Y - (inflightOffsets env (wrapVec32 (sumSamples samples))).Y)
            Z := wrapInt32 (s2.Z - (inflightOffsets env (wrapVec32 (sumSamples samples))).Z) }
        AccInflightCalibrationSavetoEEProm := false
        accelerationTrims := inflightOffsets env (wrapVec32 (sumSamples samples))
        rollAndPitchTrims := { roll := 0, pitch := 0 }
        events := (feed env (armInflight 50 st) samples).events ++
          [Event.saveConfigAndNotify (inflightOffsets env (wrapVec32 (sumSamples samples)))
            { roll := 0, pitch := 0 }] } := by
  have hw := armInflight_window env hf st samples hlen hc hs
  have hb : (feed env (armInflight 50 st) samples).b = wrapVec32 (sumSamples samples) := by
    rw [hw]
  have h0 : (feed env (armInflight 50 st) samples).calibratingA = 0 := by rw [hw]; exact hc
  have h1 : (feed env (armInflight 50 st) samples).InflightcalibratingA = 0 := by rw [hw]
  rw [commitAfterWindow, update_commit env _ s2 (by exact h0) hf (by exact h1) rfl]
  simp only [requestInflightCommit, hb]

/-- C5 (in-flight rollback).  With ground calibration complete, the feature
enabled and no commit requested, arming `InflightcalibratingA = 50` and running
50 successful passes leaves `Trims.raw` and the roll and pitch angular trims
equal to their pre-arm values and `InflightcalibratingA = 0`, for every pre-arm
Trims (16-bit values) and every 50 samples. -/
theorem inflight_rollback (env : Env) (st : AccState) (samples : List Vec3)
    (hf : env.featureInflightAccCal = true) (hlen : samples.length = 50)
    (hc : st.calibratingA = 0) (hs : st.AccInflightCalibrationSavetoEEProm = false)
    (h16 : vecInInt16 st.accelerationTrims) :
    (feed env (armInflight 50 st) samples).accelerationTrims = st.accelerationTrims ∧
    (feed env (armInflight 50 st) samples).rollAndPitchTrims = st.rollAndPitchTrims ∧
    (feed env (armInflight 50 st) samples).InflightcalibratingA = 0 := by
  rw [armInflight_window env hf st samples hlen hc hs]
  exact ⟨wrapVec16_of_in _ h16, rfl, rfl⟩

/-- Witness for C5: from Trims `(5, -6, 7)` and angular trims `(1, -2)`, a
window of 50 samples `(100, -200, 300)` ends with the same Trims and angular
trims and with the countdown at 0. -/
theorem inflight_rollback_witness :
    (feed exampleEnv (armInflight 50 trimmedState)
      (List.replicate 50 ⟨100, -200, 300⟩)).accelerationTrims = ⟨5, -6, 7⟩ ∧
    (feed exampleEnv (armInflight 50 trimmedState)
      (List.replicate 50 ⟨100, -200, 300⟩)).rollAndPitchTrims = { roll := 1, pitch := -2 } ∧
    (feed exampleEnv (armInflight 50 trimmedState)
      (List.replicate 50 ⟨100, -200, 300⟩)).InflightcalibratingA = 0 :=
  inflight_rollback exampleEnv trimmedState (List.replicate 50 ⟨100, -200, 300⟩) rfl
    (List.length_replicate _ _) rfl rfl (by decide)

/-- C6, counterexample (in-flight commit).  With `acc_1G = 256`, committing a
window of 50 samples `(0, 0, -32768)` stores `Trims.raw = (0, 0, 32512)`,
whereas the claim gives `(0, 0, -32768 - 256) = (0, 0, -33024)`: that value is
not an `int16_t` and is stored reduced modulo `2^16`. -/
theorem inflight_commit_outside_int16 :
    (commitAfterWindow exampleEnv trimmedState (List.replicate 50 ⟨0, 0, -32768⟩)
      ⟨11, 19, 31⟩).accelerationTrims = ⟨0, 0, 32512⟩ ∧
    inflightAverage exampleEnv (sumSamples (List.replicate 50 ⟨0, 0, -32768⟩))
      = ⟨0, 0, -33024⟩ := by
  rw [commitAfterWindow_eq exampleEnv rfl trimmedState (List.replicate 50 ⟨0, 0, -32768⟩)
    ⟨11, 19, 31⟩ (List.length_replicate _ _) rfl rfl, sumSamples_replicate]
  decide

/-- C6, amended (in-flight commit).  After a completed window of 50 samples
(armed with 50, ground calibration complete, feature enabled), a pass with the
commit flag set writes, for every sample sequence, the Trims the commit
computes in machine arithmetic: per axis the sum held in the `int32_t`
accumulator divided by 50 with truncating division and no rounding term, the Z
axis reduced by `acc_1G`, each value converted to the `int16_t` of the Trims.
It sets roll and pitch to 0, issues exactly one persistence request (carrying
those values) and clears the commit flag.  When the sums fit `int32_t` and
the three values fit `int16_t` (`inflightFits`) the Trims are exactly
`(Sx / 50, Sy / 50, Sz / 50 - acc_1G)`, and for 50 identical samples
`(x, y, z)` they are `(x, y, z - acc_1G)`. -/
theorem inflight_commit_result (env : Env) (st : AccState) (samples : List Vec3) (s2 : Vec3)
    (hf : env.featureInflightAccCal = true) (hlen : samples.length = 50)
    (hc : st.calibratingA = 0) (hs : st.AccInflightCalibrationSavetoEEProm = false) :
    (commitAfterWindow env st samples s2).accelerationTrims
      = inflightOffsets env (wrapVec32 (sumSamples samples)) ∧
    (commitAfterWindow env st samples s2).rollAndPitchTrims = { roll := 0, pitch := 0 } ∧
    (commitAfterWindow env st samples s2).events
      = (feed env (armInflight 50 st) samples).events ++
          [Event.saveConfigAndNotify (inflightOffsets env (wrapVec32 (sumSamples samples)))
            { roll := 0, pitch := 0 }] ∧
    (commitAfterWindow env st samples s2).AccInflightCalibrationSavetoEEProm = false ∧
    (inflightFits env samples →
      (commitAfterWindow env st samples s2).accelerationTrims
        = inflightAverage env (sumSamples samples)) ∧
    (∀ x y z : Int, samples = List.replicate 50 ⟨x, y, z⟩ → inflightFits env samples →
      (commitAfterWindow env st samples s2).accelerationTrims = ⟨x, y, z - env.acc_1G⟩) := by
  rw [commitAfterWindow_eq env hf st samples s2 hlen hc hs]
  refine ⟨rfl, rfl, rfl, rfl, ?_, ?_⟩
  · intro hfit
    exact inflightOffsets_of_fits env samples hfit
  · intro x y z hxyz hfit
    have hfit2 := inflightOffsets_of_fits env samples hfit
    show inflightOffsets env (wrapVec32 (sumSamples samples)) = _
    rw [hfit2]
    subst hxyz
    rw [sumSamples_replicate]
    have h50 : (50 : Int) ≠ 0 := by decide
    have hx := Int.mul_tdiv_cancel_left x h50
    have hy := Int.mul_tdiv_cancel_left y h50
    have hz := Int.mul_tdiv_cancel_left z h50
    simp only [inflightAverage, Nat.cast_ofNat, hx, hy, hz]

theorem fits_example_inflight : inflightFits exampleEnv (List.replicate 50 ⟨10, 20, 30⟩) := by
  unfold inflightFits
  rw [sumSamples_replicate]
  decide

/-- Witness for C6 (amended): 50 samples `(10, 20, 30)` with `acc_1G = 256`
commit to Trims `(10, 20, -226)`, zero angular trims, a cleared commit flag,
and the events of the run are the completion beep followed by one persistence
request. -/
theorem inflight_commit_result_witness :
    (commitAfterWindow exampleEnv trimmedState (List.replicate 50 ⟨10, 20, 30⟩)
      ⟨11, 19, 31⟩).accelerationTrims = ⟨10, 20, -226⟩ ∧
    (commitAfterWindow exampleEnv trimmedState (List.replicate 50 ⟨10, 20, 30⟩)
      ⟨11, 19, 31⟩).rollAndPitchTrims = { roll := 0, pitch := 0 } ∧
    (commitAfterWindow exampleEnv trimmedState (List.replicate 50 ⟨10, 20, 30⟩)
      ⟨11, 19, 31⟩).AccInflightCalibrationSavetoEEProm = false ∧
    (commitAfterWindow exampleEnv trimmedState (List.replicate 50 ⟨10, 20, 30⟩)
      ⟨11, 19, 31⟩).events =
      [Event.beeper_ACC_CALIBRATION,
        Event.saveConfigAndNotify ⟨10, 20, -226⟩ { roll := 0, pitch := 0 }] := by
  have h := inflight_commit_result exampleEnv trimmedState (List.replicate 50 ⟨10, 20, 30⟩)
    ⟨11, 19, 31⟩ rfl (List.length_replicate _ _) rfl rfl
  have hw := armInflight_window exampleEnv rfl trimmedState (List.replicate 50 ⟨10, 20, 30⟩)
    (List.length_replicate _ _) rfl rfl
  refine ⟨h.2.2.2.2.2 10 20 30 rfl fits_example_inflight, h.2.1, h.2.2.2.1, ?_⟩
  rw [h.2.2.1, hw, sumSamples_replicate]
  decide

/-- C7, counterexample (re-arming in-flight calibration discards the earlier
measurement).  With `acc_1G = 256`, a first window of 50 samples
`(1000, 1000, 1000)`, a re-arm, a second window of 50 samples `(7, -7, -32768)`
and the commit store `Trims.raw = (7, -7, 32512)`, whereas the claim gives
`(7, -7, -33024)` from the second window. -/
theorem inflight_rearm_outside_int16 :
    (commitAfterWindow exampleEnv
      (feed exampleEnv (armInflight 50 trimmedState) (List.replicate 50 ⟨1000, 1000, 1000⟩))
      (List.replicate 50 ⟨7, -7, -32768⟩) ⟨11, 19, 31⟩).accelerationTrims = ⟨7, -7, 32512⟩ ∧
    inflightAverage exampleEnv (sumSamples (List.replicate 50 ⟨7, -7, -32768⟩))
      = ⟨7, -7, -33024⟩ := by
  have hw := armInflight_window exampleEnv rfl trimmedState
    (List.replicate 50 ⟨1000, 1000, 1000⟩) (List.length_replicate _ _) rfl rfl
  have hc1 : (feed exampleEnv (armInflight 50 trimmedState)
      (List.replicate 50 ⟨1000, 1000, 1000⟩)).calibratingA = 0 := by rw [hw]; rfl
  have hs1 : (feed exampleEnv (armInflight 50 trimmedState)
      (List.replicate 50 ⟨1000, 1000, 1000⟩)).AccInflightCalibrationSavetoEEProm = false := by
    rw [hw]; rfl
  rw [commitAfterWindow_eq exampleEnv rfl _ (List.replicate 50 ⟨7, -7, -32768⟩)
    ⟨11, 19, 31⟩ (List.length_replicate _ _) hc1 hs1, sumSamples_replicate]
  decide

/-- C7, amended (re-arming in-flight calibration discards the earlier
measurement).  Arm with 50 and run `W1`, arm with 50 again without commit and
run `W2`, then commit: for every two windows the committed Trims are those the
commit computes in machine arithmetic from `W2` alone (per axis the `int32_t`
sum of `W2` divided by 50, truncating, the Z axis reduced by `acc_1G`, each
value converted to `int16_t`), and they are the same for every other first
window.  When the sums of `W2` fit `int32_t` and the three values fit
`int16_t` they are exactly `(ΣW2.x / 50, ΣW2.y / 50, ΣW2.z / 50 - acc_1G)`. -/
theorem inflight_rearm_discards (env : Env) (st : AccState) (W1 W2 : List Vec3) (s2 : Vec3)
    (hf : env.featureInflightAccCal = true) (h1 : W1.length = 50) (h2 : W2.length = 50)
    (hc : st.calibratingA = 0) (hs : st.AccInflightCalibrationSavetoEEProm = false) :
    (commitAfterWindow env (feed env (armInflight 50 st) W1) W2 s2).accelerationTrims
      = inflightOffsets env (wrapVec32 (sumSamples W2)) ∧
    (∀ W3 : List Vec3, W3.length = 50 →
      (commitAfterWindow env (feed env (armInflight 50 st) W3) W2 s2).accelerationTrims
        = (commitAfterWindow env (feed env (armInflight 50 st) W1) W2 s2).accelerationTrims) ∧
    (inflightFits env W2 →
      (commitAfterWindow env (feed env (armInflight 50 st) W1) W2 s2).accelerationTrims
        = inflightAverage env (sumSamples W2)) := by
  have key : ∀ W : List Vec3, W.length = 50 →
      (commitAfterWindow env (feed env (armInflight 50 st) W) W2 s2).accelerationTrims
        = inflightOffsets env (wrapVec32 (sumSamples W2)) := by
    intro W hW
    have hw := armInflight_window env hf st W hW hc hs
    have hc1 : (feed env (armInflight 50 st) W).calibratingA = 0 := by rw [hw]; exact hc
    have hs1 : (feed env (armInflight 50 st) W).AccInflightCalibrationSavetoEEProm = false := by
      rw [hw]; exact hs
    rw [commitAfterWindow_eq env hf _ W2 s2 h2 hc1 hs1]
  refine ⟨key W1 h1, fun W3 h3 => by rw [key W3 h3, key W1 h1], ?_⟩
  intro hfit
  rw [key W1 h1]
  exact inflightOffsets_of_fits env W2 hfit

/-- Witness for C7 (amended): a first window of 50 samples `(1000, 1000, 1000)`
followed by a second of 50 samples `(10, 20, 30)` commits to `(10, 20, -226)`. -/
theorem inflight_rearm_discards_witness :
    (commitAfterWindow exampleEnv
      (feed exampleEnv (armInflight 50 trimmedState) (List.replicate 50 ⟨1000, 1000, 1000⟩))
      (List.replicate 50 ⟨10, 20, 30⟩) ⟨11, 19, 31⟩).accelerationTrims = ⟨10, 20, -226⟩ := by
  have h := inflight_rearm_discards exampleEnv trimmedState
    (List.replicate 50 ⟨1000, 1000, 1000⟩) (List.replicate 50 ⟨10, 20, 30⟩) ⟨11, 19, 31⟩ rfl
    (List.length_replicate _ _) (List.length_replicate _ _) rfl rfl
  rw [h.2.2 fits_example_inflight, sumSamples_replicate]
  decide

/-! ## The published sample and the Trims during calibration -/

theorem ground_accSmooth (env : Env) (st : AccState) :
    (performAcclerationCalibration env st).accSmooth = Vec3.zero := by
  simp only [performAcclerationCalibration, ground_loop]
  split <;> rfl

theorem ground_notfinal_fields (env : Env) (st : AccState) (h1 : st.calibratingA ≠ 1) :
    (performAcclerationCalibration env st).accelerationTrims = Vec3.zero ∧
    (performAcclerationCalibration env st).InflightcalibratingA = st.InflightcalibratingA ∧
    (performAcclerationCalibration env st).AccInflightCalibrationSavetoEEProm
      = st.AccInflightCalibrationSavetoEEProm := by
  have h : ¬ (st.calibratingA == 1) = true := by simpa using h1
  simp only [performAcclerationCalibration, ground_loop, isOnFinalAccelerationCalibrationCycle,
    if_neg h, and_self]

theorem measure_active (st : AccState)
    (h0 : 0 < st.InflightcalibratingA) (h1 : st.InflightcalibratingA ≠ 1) :
    inflightMeasure st =
      { st with
        accSmooth := Vec3.zero
        InflightcalibratingA := (st.InflightcalibratingA + 65535) % 65536
        b := accumStep (st.InflightcalibratingA == 50) st.b st.accSmooth
        accelerationTrims := Vec3.zero } := by
  have h0' : st.InflightcalibratingA > 0 := h0
  simp only [inflightMeasure, if_pos h0', inflight_loop, if_neg h1]

theorem inflight_notfinal_fields (env : Env) (st : AccState)
    (h1 : st.InflightcalibratingA ≠ 1) (hs : st.AccInflightCalibrationSavetoEEProm = false) :
    (performInflightAccelerationCalibration env st).accSmooth
      = (if 0 < st.InflightcalibratingA then Vec3.zero else st.accSmooth) ∧
    (performInflightAccelerationCalibration env st).accelerationTrims
      = (if 0 < st.InflightcalibratingA then Vec3.zero else st.accelerationTrims) := by
  by_cases h0 : st.InflightcalibratingA = 0
  · have hn : ¬ 0 < st.InflightcalibratingA := by omega
    rw [perform_inflight_inert env st h0 hs, if_neg hn, if_neg hn]
    exact ⟨rfl, rfl⟩
  · have hp : 0 < st.InflightcalibratingA := by omega
    rw [performInflightAccelerationCalibration, saveOld_eq,
      measure_active _ (by exact hp) (by exact h1), commit_idle _ _ (by exact hs), if_pos hp,
      if_pos hp]
    exact ⟨rfl, rfl⟩

theorem saveOld_fields (st : AccState) :
    (inflightSaveOld st).accSmooth = st.accSmooth ∧
    (inflightSaveOld st).InflightcalibratingA = st.InflightcalibratingA := by
  rw [saveOld_eq]; exact ⟨rfl, rfl⟩

theorem measure_accSmooth (st : AccState) :
    (inflightMeasure st).accSmooth
      = (if 0 < st.InflightcalibratingA then Vec3.zero else st.accSmooth) := by
  by_cases h0 : 0 < st.InflightcalibratingA
  · have h0' : st.InflightcalibratingA > 0 := h0
    simp only [inflightMeasure, if_pos h0', inflight_loop, if_pos h0]
    split <;> rfl
  · have h0' : ¬ st.InflightcalibratingA > 0 := h0
    simp only [inflightMeasure, if_neg h0', if_neg h0]

theorem commit_accSmooth (env : Env) (st : AccState) :
    (inflightCommit env st).accSmooth = st.accSmooth := by
  unfold inflightCommit; split <;> rfl

theorem inflight_accSmooth (env : Env) (st : AccState) :
    (performInflightAccelerationCalibration env st).accSmooth
      = (if 0 < st.InflightcalibratingA then Vec3.zero else st.accSmooth) := by
  rw [performInflightAccelerationCalibration, commit_accSmooth, measure_accSmooth,
    (saveOld_fields st).1, (saveOld_fields st).2]

theorem apply_fields (st : AccState) (h : st.accSmooth = Vec3.zero) :
    (applyAccelerationTrims st).accSmooth = negTrims st.accelerationTrims ∧
    (applyAccelerationTrims st).accelerationTrims = st.accelerationTrims := by
  rw [apply_zero st h]; exact ⟨rfl, rfl⟩

/-- C8 (published sample is zero while calibrating), at a failing input: on
the final pass of a ground window (`calibratingA = 1`, `N = 400`,
`acc_1G = 256`, accumulator `(3990, 0, 102144)` left by 399 samples
`(10, 0, 256)`, sample `(10, 0, 256)`) a calibration is armed when the pass
starts and the pass returns with `accSmooth = (-10, 0, 0)`, not `(0, 0, 0)`:
the offsets are stored before `applyAccelerationTrims` subtracts them from the
zeroed sample. -/
theorem published_sample_final_pass :
    calibrationArmed exampleEnvNoInflight finalCycleState ∧
    (updateAccelerationReadings exampleEnvNoInflight (some ⟨10, 0, 256⟩)
      finalCycleState).accSmooth = ⟨-10, 0, 0⟩ ∧
    (updateAccelerationReadings exampleEnvNoInflight (some ⟨10, 0, 256⟩)
      finalCycleState).accSmooth ≠ Vec3.zero := by
  decide

/-- What a pass that starts with a calibration armed publishes.  The sample
is zeroed by the calibration step, so the pass returns `0 - Trims` per axis
with the Trims as the pass leaves them; on every pass that is not the last
cycle of a window and does not commit (`calibratingA ≠ 1` and, with the
in-flight feature enabled, `InflightcalibratingA ≠ 1` and no commit requested)
the Trims are zero as well and the published sample is `(0, 0, 0)`, which is
what lines 130-132 are there for. -/
theorem published_sample_while_calibrating (env : Env) (st : AccState) (s : Vec3)
    (harmed : calibrationArmed env st) :
    (updateAccelerationReadings env (some s) st).accSmooth
      = negTrims (updateAccelerationReadings env (some s) st).accelerationTrims ∧
    (st.calibratingA ≠ 1 →
      (env.featureInflightAccCal = true →
        st.InflightcalibratingA ≠ 1 ∧ st.AccInflightCalibrationSavetoEEProm = false) →
      (updateAccelerationReadings env (some s) st).accSmooth = Vec3.zero) := by
  rw [update_some]
  -- the state after the optional ground step
  have hG : ∀ G : AccState,
      G = (if st.calibratingA = 0 then { st with accSmooth := s }
           else performAcclerationCalibration env { st with accSmooth := s }) →
      (st.calibratingA ≠ 0 → G.accSmooth = Vec3.zero) ∧
      (st.calibratingA = 0 → G.InflightcalibratingA = st.InflightcalibratingA) ∧
      (st.calibratingA ≠ 0 → st.calibratingA ≠ 1 → G.accelerationTrims = Vec3.zero) ∧
      (st.calibratingA ≠ 1 → G.InflightcalibratingA = st.InflightcalibratingA ∧
        G.AccInflightCalibrationSavetoEEProm = st.AccInflightCalibrationSavetoEEProm) := by
    intro G hGdef
    by_cases hc : st.calibratingA = 0
    · rw [if_pos hc] at hGdef
      subst hGdef
      exact ⟨fun h => absurd hc h, fun _ => rfl, fun h => absurd hc h, fun _ => ⟨rfl, rfl⟩⟩
    · rw [if_neg hc] at hGdef
      subst hGdef
      refine ⟨fun _ => ground_accSmooth env _, fun h => absurd h hc, fun _ h1 => ?_, fun h1 => ?_⟩
      · exact (ground_notfinal_fields env { st with accSmooth := s } h1).1
      · exact (ground_notfinal_fields env { st with accSmooth := s } h1).2
  generalize hGdef : (if st.calibratingA = 0 then { st with accSmooth := s }
           else performAcclerationCalibration env { st with accSmooth := s }) = G
  obtain ⟨g1, g2, g3, g4⟩ := hG G hGdef.symm
  -- the state handed to `applyAccelerationTrims` has a zeroed sample
  have hX : (if env.featureInflightAccCal then performInflightAccelerationCalibration env G
      else G).accSmooth = Vec3.zero := by
    by_cases hf : env.featureInflightAccCal = true
    · rw [if_pos hf, inflight_accSmooth]
      by_cases hc : st.calibratingA = 0
      · rcases harmed with h | ⟨_, h⟩
        · omega
        · rw [g2 hc, if_pos h]
      · split
        · rfl
        · exact g1 hc
    · rw [if_neg hf]
      rcases harmed with h | ⟨h, _⟩
      · exact g1 (by omega)
      · exact absurd h hf
  refine ⟨?_, ?_⟩
  · rw [(apply_fields _ hX).1, (apply_fields _ hX).2]
  · intro h1 hinf
    rw [(apply_fields _ hX).1]
    have hT : (if env.featureInflightAccCal then performInflightAccelerationCalibration env G
        else G).accelerationTrims = Vec3.zero := by
      by_cases hf : env.featureInflightAccCal = true
      · obtain ⟨i1, i2⟩ := hinf hf
        obtain ⟨g5, g6⟩ := g4 h1
        rw [if_pos hf, (inflight_notfinal_fields env G (by rw [g5]; exact i1)
          (by rw [g6]; exact i2)).2, g5]
        by_cases hc : st.calibratingA = 0
        · rcases harmed with h | ⟨_, h⟩
          · omega
          · rw [if_pos h]
        · split
          · rfl
          · exact g3 hc h1
      · rw [if_neg hf]
        rcases harmed with h | ⟨h, _⟩
        · exact g3 (by omega) h1
        · exact absurd h hf
    rw [hT]
    exact negTrims_zero

/-- Example of the previous statement: the first pass of a ground window armed
with 400 returns with `accSmooth = (0, 0, 0)`. -/
theorem published_sample_while_calibrating_witness :
    (updateAccelerationReadings exampleEnv (some ⟨10, -20, 500⟩)
      (accSetCalibrationCycles 400 trimmedState)).accSmooth = Vec3.zero :=
  (published_sample_while_calibrating exampleEnv (accSetCalibrationCycles 400 trimmedState)
    ⟨10, -20, 500⟩ (by decide)).2 (by decide) (fun _ => by decide)

/-! ## The two calibration steps in one pass -/

theorem ground_frame (env : Env) (st : AccState) :
    (performAcclerationCalibration env st).InflightcalibratingA = st.InflightcalibratingA ∧
    (performAcclerationCalibration env st).b = st.b ∧
    (performAcclerationCalibration env st).accZero_saved = st.accZero_saved ∧
    (performAcclerationCalibration env st).angleTrim_saved = st.angleTrim_saved ∧
    (performAcclerationCalibration env st).AccInflightCalibrationSavetoEEProm
      = st.AccInflightCalibrationSavetoEEProm := by
  simp only [performAcclerationCalibration, ground_loop]
  split <;> exact ⟨rfl, rfl, rfl, rfl, rfl⟩

theorem apply_frame (st : AccState) :
    (applyAccelerationTrims st).InflightcalibratingA = st.InflightcalibratingA ∧
    (applyAccelerationTrims st).b = st.b ∧
    (applyAccelerationTrims st).accZero_saved = st.accZero_saved ∧
    (applyAccelerationTrims st).angleTrim_saved = st.angleTrim_saved ∧
    (applyAccelerationTrims st).AccInflightCalibrationSavetoEEProm
      = st.AccInflightCalibrationSavetoEEProm ∧
    (applyAccelerationTrims st).accelerationTrims = st.accelerationTrims :=
  ⟨rfl, rfl, rfl, rfl, rfl, rfl⟩

/-- C9, counterexample (the two calibration steps are mutually exclusive per
pass).  With `calibratingA = 400`, the in-flight feature enabled and
`InflightcalibratingA = 50`, one pass also runs the in-flight step: the
in-flight countdown goes from 50 to 49, the in-flight accumulator from
`(8, 8, 8)` to `(0, 0, 0)` and the saved angular trims from `(0, 0)` to
`(1, -2)`. -/
theorem both_steps_run_in_one_pass :
    0 < bothArmedState.calibratingA ∧
    bothArmedState.InflightcalibratingA = 50 ∧
    (updateAccelerationReadings exampleEnv (some ⟨10, -20, 500⟩)
      bothArmedState).InflightcalibratingA = 49 ∧
    bothArmedState.b = ⟨8, 8, 8⟩ ∧
    (updateAccelerationReadings exampleEnv (some ⟨10, -20, 500⟩) bothArmedState).b = ⟨0, 0, 0⟩ ∧
    bothArmedState.angleTrim_saved = { roll := 0, pitch := 0 } ∧
    (updateAccelerationReadings exampleEnv (some ⟨10, -20, 500⟩)
      bothArmedState).angleTrim_saved = { roll := 1, pitch := -2 } := by
  decide

/-- C9, amended.  In a state with `calibratingA > 0` one pass runs the ground
step and then, when the in-flight feature is enabled, the in-flight step as
well (the two `if` statements are independent).  When the in-flight step has
nothing to do (feature disabled, or `InflightcalibratingA = 0` and no commit
requested) the pass is the ground step followed by the trim application:
`InflightcalibratingA`, the in-flight accumulator, the rollback snapshot and
the commit flag are unchanged and the Trims are those written by the ground
step. -/
theorem ground_step_alone (env : Env) (st : AccState) (s : Vec3)
    (hc : 0 < st.calibratingA) :
    (env.featureInflightAccCal = true →
      updateAccelerationReadings env (some s) st =
        applyAccelerationTrims (performInflightAccelerationCalibration env
          (performAcclerationCalibration env { st with accSmooth := s }))) ∧
    (inflightInert env st →
      updateAccelerationReadings env (some s) st =
        applyAccelerationTrims (performAcclerationCalibration env { st with accSmooth := s }) ∧
      (updateAccelerationReadings env (some s) st).InflightcalibratingA
        = st.InflightcalibratingA ∧
      (updateAccelerationReadings env (some s) st).b = st.b ∧
      (updateAccelerationReadings env (some s) st).accZero_saved = st.accZero_saved ∧
      (updateAccelerationReadings env (some s) st).angleTrim_saved = st.angleTrim_saved ∧
      (updateAccelerationReadings env (some s) st).AccInflightCalibrationSavetoEEProm
        = st.AccInflightCalibrationSavetoEEProm ∧
      (updateAccelerationReadings env (some s) st).accelerationTrims
        = (performAcclerationCalibration env { st with accSmooth := s }).accelerationTrims) := by
  have hne : ¬ st.calibratingA = 0 := by omega
  constructor
  · intro hf
    rw [update_some, if_pos hf, if_neg hne]
  · intro hin
    have hf := ground_frame env { st with accSmooth := s }
    have hin2 : inflightInert env (performAcclerationCalibration env { st with accSmooth := s }) := by
      rcases hin with h | ⟨h0, hs⟩
      · exact Or.inl h
      · exact Or.inr ⟨by rw [hf.1]; exact h0, by rw [hf.2.2.2.2]; exact hs⟩
    have e : updateAccelerationReadings env (some s) st =
        applyAccelerationTrims (performAcclerationCalibration env { st with accSmooth := s }) := by
      rw [update_some]
      simp only [if_neg hne]
      rw [inflight_after env _ hin2]
    have ha := apply_frame (performAcclerationCalibration env { st with accSmooth := s })
    rw [e]
    refine ⟨rfl, ?_, ?_, ?_, ?_, ?_, ?_⟩
    · rw [ha.1, hf.1]
    · rw [ha.2.1, hf.2.1]
    · rw [ha.2.2.1, hf.2.2.1]
    · rw [ha.2.2.2.1, hf.2.2.2.1]
    · rw [ha.2.2.2.2.1, hf.2.2.2.2]
    · rw [ha.2.2.2.2.2]

/-- Witness for C9 (amended): with the ground countdown at 400, the feature
enabled and the in-flight calibration idle, one pass leaves the in-flight
countdown at 0, the in-flight accumulator at `(8, 8, 8)` and the commit flag
clear. -/
theorem ground_step_alone_witness :
    (updateAccelerationReadings exampleEnv (some ⟨10, -20, 500⟩)
      (accSetCalibrationCycles 400 trimmedState)).InflightcalibratingA = 0 ∧
    (updateAccelerationReadings exampleEnv (some ⟨10, -20, 500⟩)
      (accSetCalibrationCycles 400 trimmedState)).b = ⟨8, 8, 8⟩ ∧
    (updateAccelerationReadings exampleEnv (some ⟨10, -20, 500⟩)
      (accSetCalibrationCycles 400 trimmedState)).AccInflightCalibrationSavetoEEProm = false := by
  have h := (ground_step_alone exampleEnv (accSetCalibrationCycles 400 trimmedState)
    ⟨10, -20, 500⟩ (by decide)).2 (by decide)
  exact ⟨h.2.1, h.2.2.1, h.2.2.2.2.2.1⟩

/-! ## The Trims during a ground window -/

/-- C10, counterexample (Trims are only ever observed as pre-calibration or
post-calibration values).  A window armed with 400 from Trims `(5, -6, 7)` and
fed the constant sample `(10, -20, 500)` shows Trims `(0, 0, 0)` after its
first pass, which is neither the pre-arm value nor the final offsets
`(10, -19, 244)`. -/
theorem trims_zero_after_first_pass :
    (accSetCalibrationCycles 400 trimmedState).accelerationTrims = ⟨5, -6, 7⟩ ∧
    (feed exampleEnv (accSetCalibrationCycles 400 trimmedState)
      ((List.replicate 400 ⟨10, -20, 500⟩).take 1)).accelerationTrims = ⟨0, 0, 0⟩ ∧
    (feed exampleEnv (accSetCalibrationCycles 400 trimmedState)
      (List.replicate 400 ⟨10, -20, 500⟩)).accelerationTrims = ⟨10, -19, 244⟩ := by
  refine ⟨by decide, ?_, ?_⟩
  · rw [List.take_replicate]
    decide
  · rw [ground_window exampleEnv (accSetCalibrationCycles 400 trimmedState)
      (List.replicate 400 ⟨10, -20, 500⟩) (by decide) (by decide) (List.length_replicate _ _)
      (by decide) (by decide), sumSamples_replicate]
    decide

/-- C10, amended.  In a ground window armed with `N = CALIBRATING_ACC_CYCLES`
while the in-flight step has nothing to do, the Trims observed after each of
the first `N - 1` passes are `(0, 0, 0)`, whatever the pre-arm Trims, and the
Trims observed after the `N`-th pass are the offsets computed from the sums of
the window. -/
theorem trims_during_ground_window (env : Env) (st : AccState) (samples : List Vec3)
    (hN : 0 < env.CALIBRATING_ACC_CYCLES) (hN16 : env.CALIBRATING_ACC_CYCLES ≤ 65535)
    (hlen : samples.length = env.CALIBRATING_ACC_CYCLES)
    (hcal : st.calibratingA = env.CALIBRATING_ACC_CYCLES)
    (hin : inflightInert env st) :
    (∀ k : Nat, 0 < k → k < env.CALIBRATING_ACC_CYCLES →
      (feed env st (samples.take k)).accelerationTrims = Vec3.zero) ∧
    (feed env st (samples.take env.CALIBRATING_ACC_CYCLES)).accelerationTrims
      = groundOffsets env (wrapVec32 (sumSamples samples)) := by
  constructor
  · intro k hk1 hk2
    have hl : (samples.take k).length = k := by
      rw [List.length_take]; omega
    cases hcases : samples.take k with
    | nil => rw [hcases] at hl; simp at hl; omega
    | cons s l =>
      rw [hcases] at hl
      rw [ground_running env l s st (by simp at hl; omega) (by omega) hin]
  · rw [← hlen, List.take_length, ground_window env st samples hN hN16 hlen hcal hin]

/-- Witness for C10 (amended): in the window of 400 samples `(10, -20, 500)`
from Trims `(5, -6, 7)`, the Trims are `(0, 0, 0)` after 399 passes. -/
theorem trims_during_ground_window_witness :
    (feed exampleEnv (accSetCalibrationCycles 400 trimmedState)
      ((List.replicate 400 ⟨10, -20, 500⟩).take 399)).accelerationTrims = Vec3.zero :=
  (trims_during_ground_window exampleEnv (accSetCalibrationCycles 400 trimmedState)
    (List.replicate 400 ⟨10, -20, 500⟩) (by decide) (by decide) (List.length_replicate _ _)
    (by decide) (by decide)).1 399 (by decide) (by decide)

/-! ## Passes outside calibration -/

theorem update_idle (env : Env) (st : AccState) (s : Vec3)
    (hc : st.calibratingA = 0) (hin : inflightInert env st) :
    updateAccelerationReadings env (some s) st =
      { st with
        accSmooth :=
          { X := wrapInt32 (s.X - st.accelerationTrims.X)
            Y := wrapInt32 (s.Y - st.accelerationTrims.Y)
            Z := wrapInt32 (s.Z - st.accelerationTrims.Z) } } := by
  rw [update_some]
  simp only [if_pos hc]
  rw [inflight_after env _ (by simpa [inflightInert] using hin)]
  rfl

/-- C11 (a pass with no new sample changes nothing).  When `acc.read` reports
no new data the pass returns the state it was given: the published sample,
the Trims, the angular trims, both countdowns, both accumulators, the
rollback snapshot, the in-flight flags and the list of calls made (no
persistence request, no beep) are all unchanged, whatever is armed or
requested. -/
theorem no_sample_no_change (env : Env) (st : AccState) :
    updateAccelerationReadings env none st = st ∧
    (updateAccelerationReadings env none st).events = st.events ∧
    (∀ k : Nat, runPasses env st (List.replicate k none) = st) := by
  refine ⟨rfl, rfl, ?_⟩
  intro k
  induction k with
  | zero => rfl
  | succ k ih =>
    rw [List.replicate_succ]
    exact ih

/-- C12 (trim application in normal operation).  With ground calibration
complete, `InflightcalibratingA = 0` and no commit requested, a successful pass
with the filtered, aligned sample `(x, y, z)` publishes
`accSmooth = (x - tx, y - ty, z - tz)` and leaves `Trims.raw` and the roll and
pitch angular trims unchanged, whenever the three differences are `int32_t`
values. -/
theorem trim_application (env : Env) (st : AccState) (s : Vec3)
    (hc : st.calibratingA = 0) (hm : st.InflightcalibratingA = 0)
    (hs : st.AccInflightCalibrationSavetoEEProm = false)
    (hfit : vecInInt32
      { X := s.X - st.accelerationTrims.X
        Y := s.Y - st.accelerationTrims.Y
        Z := s.Z - st.accelerationTrims.Z }) :
    (updateAccelerationReadings env (some s) st).accSmooth =
      { X := s.X - st.accelerationTrims.X
        Y := s.Y - st.accelerationTrims.Y
        Z := s.Z - st.accelerationTrims.Z } ∧
    (updateAccelerationReadings env (some s) st).accelerationTrims = st.accelerationTrims ∧
    (updateAccelerationReadings env (some s) st).rollAndPitchTrims = st.rollAndPitchTrims := by
  obtain ⟨hx, hy, hz⟩ := hfit
  rw [update_idle env st s hc (Or.inr ⟨hm, hs⟩)]
  refine ⟨?_, rfl, rfl⟩
  show Vec3.mk _ _ _ = _
  rw [wrapInt32_of_in hx, wrapInt32_of_in hy, wrapInt32_of_in hz]

/-- Witness for C12: with Trims `(5, -6, 7)` and angular trims `(1, -2)` the
sample `(100, 200, 300)` is published as `(95, 206, 293)` and the Trims and
angular trims stay as they were. -/
theorem trim_application_witness :
    (updateAccelerationReadings exampleEnv (some ⟨100, 200, 300⟩) trimmedState).accSmooth
      = ⟨95, 206, 293⟩ ∧
    (updateAccelerationReadings exampleEnv (some ⟨100, 200, 300⟩)
      trimmedState).accelerationTrims = ⟨5, -6, 7⟩ ∧
    (updateAccelerationReadings exampleEnv (some ⟨100, 200, 300⟩)
      trimmedState).rollAndPitchTrims = { roll := 1, pitch := -2 } :=
  trim_application exampleEnv trimmedState ⟨100, 200, 300⟩ rfl rfl rfl (by decide)

/-! ## The two countdowns -/

theorem commit_Inflight (env : Env) (st : AccState) :
    (inflightCommit env st).InflightcalibratingA = st.InflightcalibratingA := by
  unfold inflightCommit; split <;> rfl

theorem measure_Inflight (st : AccState) :
    (inflightMeasure st).InflightcalibratingA
      = (if 0 < st.InflightcalibratingA then (st.InflightcalibratingA + 65535) % 65536
         else st.InflightcalibratingA) := by
  by_cases h0 : 0 < st.InflightcalibratingA
  · have h0' : st.InflightcalibratingA > 0 := h0
    simp only [inflightMeasure, if_pos h0', inflight_loop, if_pos h0]
    split <;> rfl
  · have h0' : ¬ st.InflightcalibratingA > 0 := h0
    simp only [inflightMeasure, if_neg h0', if_neg h0]

theorem performInflight_Inflight (env : Env) (st : AccState) :
    (performInflightAccelerationCalibration env st).InflightcalibratingA
      = (if 0 < st.InflightcalibratingA then (st.InflightcalibratingA + 65535) % 65536
         else st.InflightcalibratingA) := by
  rw [performInflightAccelerationCalibration, commit_Inflight, measure_Inflight,
    (saveOld_fields st).2]

theorem update_Inflight (env : Env) (st : AccState) (s : Vec3) :
    (updateAccelerationReadings env (some s) st).InflightcalibratingA
      = (if env.featureInflightAccCal = true ∧ 0 < st.InflightcalibratingA then
          (st.InflightcalibratingA + 65535) % 65536
         else st.InflightcalibratingA) := by
  rw [update_some, (apply_frame _).1]
  have hG : (if st.calibratingA = 0 then { st with accSmooth := s }
      else performAcclerationCalibration env { st with accSmooth := s }).InflightcalibratingA
      = st.InflightcalibratingA := by
    split
    · rfl
    · exact (ground_frame env _).1
  by_cases hf : env.featureInflightAccCal = true
  · rw [if_pos hf, performInflight_Inflight, hG]
    by_cases h0 : 0 < st.InflightcalibratingA
    · rw [if_pos h0, if_pos ⟨hf, h0⟩]
    · rw [if_neg h0, if_neg (fun h => h0 h.2)]
  · rw [if_neg hf, hG, if_neg (fun h => hf h.1)]

/-- C18 (the countdown counters never wrap).  For every state whose counters
are `uint16_t` values and every input of a pass, `calibratingA` after the pass
is `calibratingA - 1` when it was non-zero and acquisition succeeded and is
unchanged otherwise; `InflightcalibratingA` is one less when it was greater
than zero, the feature is enabled and acquisition succeeded, and is unchanged
otherwise.  Hence each counter is unchanged or exactly one less, never above
its old value (no 16-bit underflow), and a counter that is 0 stays 0. -/
theorem countdowns_never_wrap (env : Env) (input : Option Vec3) (st : AccState)
    (hc : st.calibratingA ≤ 65535) (hm : st.InflightcalibratingA ≤ 65535) :
    ((updateAccelerationReadings env input st).calibratingA = st.calibratingA ∨
      (updateAccelerationReadings env input st).calibratingA + 1 = st.calibratingA) ∧
    ((updateAccelerationReadings env input st).InflightcalibratingA = st.InflightcalibratingA ∨
      (updateAccelerationReadings env input st).InflightcalibratingA + 1
        = st.InflightcalibratingA) ∧
    (st.calibratingA = 0 → (updateAccelerationReadings env input st).calibratingA = 0) ∧
    (st.InflightcalibratingA = 0 →
      (updateAccelerationReadings env input st).InflightcalibratingA = 0) ∧
    (updateAccelerationReadings env input st).calibratingA ≤ st.calibratingA ∧
    (updateAccelerationReadings env input st).InflightcalibratingA ≤ st.InflightcalibratingA ∧
    (∀ s : Vec3, input = some s → 0 < st.calibratingA →
      (updateAccelerationReadings env input st).calibratingA + 1 = st.calibratingA) ∧
    (∀ s : Vec3, input = some s → env.featureInflightAccCal = true →
      0 < st.InflightcalibratingA →
      (updateAccelerationReadings env input st).InflightcalibratingA + 1
        = st.InflightcalibratingA) := by
  cases input with
  | none =>
    refine ⟨Or.inl rfl, Or.inl rfl, fun h => h, fun h => h, Nat.le_refl _, Nat.le_refl _, ?_, ?_⟩
    · intro s hs; exact absurd hs (by simp)
    · intro s hs; exact absurd hs (by simp)
  | some s =>
    have e1 := update_calibratingA env st s hc
    have e2 := update_Inflight env st s
    by_cases hi : env.featureInflightAccCal = true ∧ 0 < st.InflightcalibratingA
    · rw [if_pos hi] at e2
      have hpos := hi.2
      rw [e1, e2]
      refine ⟨by omega, by omega, by omega, by omega, by omega, by omega, ?_, ?_⟩
      · intro _ _ h; omega
      · intro _ _ _ _; omega
    · rw [if_neg hi] at e2
      rw [e1, e2]
      refine ⟨by omega, Or.inl rfl, by omega, fun h => h, by omega, Nat.le_refl _, ?_, ?_⟩
      · intro _ _ h; omega
      · intro _ _ hf h0; exact absurd ⟨hf, h0⟩ hi

/-- Witness for C18: with both countdowns armed (400 and 50) one pass leaves
399 and 49; with both at 0 one pass leaves both at 0. -/
theorem countdowns_never_wrap_witness :
    (updateAccelerationReadings exampleEnv (some ⟨10, -20, 500⟩) bothArmedState).calibratingA + 1
      = 400 ∧
    (updateAccelerationReadings exampleEnv (some ⟨10, -20, 500⟩)
      bothArmedState).InflightcalibratingA + 1 = 50 ∧
    (updateAccelerationReadings exampleEnv (some ⟨10, -20, 500⟩) trimmedState).calibratingA = 0 ∧
    (updateAccelerationReadings exampleEnv (some ⟨10, -20, 500⟩)
      trimmedState).InflightcalibratingA = 0 := by
  have h1 := countdowns_never_wrap exampleEnv (some ⟨10, -20, 500⟩) bothArmedState
    (by decide) (by decide)
  have h2 := countdowns_never_wrap exampleEnv (some ⟨10, -20, 500⟩) trimmedState
    (by decide) (by decide)
  exact ⟨h1.2.2.2.2.2.2.1 _ rfl (by decide), h1.2.2.2.2.2.2.2 _ rfl rfl (by decide),
    h2.2.2.1 rfl, h2.2.2.2.1 rfl⟩

/-! ## Calls that leave the module -/

theorem savesOf_append (l1 l2 : List Event) : savesOf (l1 ++ l2) = savesOf l1 ++ savesOf l2 := by
  simp [savesOf, List.filter_append]

theorem inflight_nocommit (env : Env) (st : AccState)
    (hs : st.AccInflightCalibrationSavetoEEProm = false) :
    (performInflightAccelerationCalibration env st).events
      = st.events ++ (if st.InflightcalibratingA = 1 then [Event.beeper_ACC_CALIBRATION] else []) ∧
    (performInflightAccelerationCalibration env st).a = st.a ∧
    (performInflightAccelerationCalibration env st).AccInflightCalibrationSavetoEEProm = false := by
  by_cases h0 : st.InflightcalibratingA = 0
  · have h1 : ¬ st.InflightcalibratingA = 1 := by omega
    rw [perform_inflight_inert env st h0 hs, if_neg h1, List.append_nil]
    exact ⟨rfl, rfl, hs⟩
  · by_cases h1 : st.InflightcalibratingA = 1
    · rw [perform_inflight_final env st h1 hs, if_pos h1]
      exact ⟨rfl, rfl, hs⟩
    · rw [performInflightAccelerationCalibration, saveOld_eq,
        measure_active _ (by show 0 < st.InflightcalibratingA; omega) (by exact h1),
        commit_idle _ _ (by exact hs), if_neg h1, List.append_nil]
      exact ⟨rfl, rfl, hs⟩

theorem ground_optional (env : Env) (st : AccState) (s : Vec3) (hc16 : st.calibratingA ≤ 65535) :
    (if st.calibratingA = 0 then { st with accSmooth := s }
      else performAcclerationCalibration env { st with accSmooth := s }).events
      = st.events ++ (if st.calibratingA = 1 then
          [Event.saveConfigAndNotify
            (groundOffsets env
              (accumStep (st.calibratingA == env.CALIBRATING_ACC_CYCLES) st.a s))
            { roll := 0, pitch := 0 }]
          else []) ∧
    (if st.calibratingA = 0 then { st with accSmooth := s }
      else performAcclerationCalibration env { st with accSmooth := s }).a
      = (if st.calibratingA = 0 then st.a
         else accumStep (st.calibratingA == env.CALIBRATING_ACC_CYCLES) st.a s) ∧
    (if st.calibratingA = 0 then { st with accSmooth := s }
      else performAcclerationCalibration env
        { st with accSmooth := s }).AccInflightCalibrationSavetoEEProm
      = st.AccInflightCalibrationSavetoEEProm := by
  by_cases h0 : st.calibratingA = 0
  · have h1 : ¬ st.calibratingA = 1 := by omega
    simp only [if_pos h0, if_neg h1, List.append_nil, and_self]
  · by_cases h1 : st.calibratingA = 1
    · simp only [if_neg h0, if_pos h1]
      rw [perform_ground_final env { st with accSmooth := s } h1]
      exact ⟨rfl, rfl, rfl⟩
    · simp only [if_neg h0, if_neg h1, List.append_nil]
      rw [perform_ground_nonfinal env { st with accSmooth := s }
        (by show 1 < st.calibratingA; omega) hc16]
      exact ⟨rfl, rfl, rfl⟩

theorem update_saves (env : Env) (st : AccState) (s : Vec3) (hc16 : st.calibratingA ≤ 65535)
    (hs : st.AccInflightCalibrationSavetoEEProm = false) :
    savesOf (updateAccelerationReadings env (some s) st).events
      = savesOf st.events ++ (if st.calibratingA = 1 then
          [Event.saveConfigAndNotify
            (groundOffsets env
              (accumStep (st.calibratingA == env.CALIBRATING_ACC_CYCLES) st.a s))
            { roll := 0, pitch := 0 }]
          else []) ∧
    (updateAccelerationReadings env (some s) st).a
      = (if st.calibratingA = 0 then st.a
         else accumStep (st.calibratingA == env.CALIBRATING_ACC_CYCLES) st.a s) ∧
    (updateAccelerationReadings env (some s) st).AccInflightCalibrationSavetoEEProm = false := by
  obtain ⟨g1, g2, g3⟩ := ground_optional env st s hc16
  rw [update_some]
  generalize (if st.calibratingA = 0 then { st with accSmooth := s }
      else performAcclerationCalibration env { st with accSmooth := s }) = G at g1 g2 g3
  have hsave : savesOf G.events = savesOf st.events ++ (if st.calibratingA = 1 then
          [Event.saveConfigAndNotify
            (groundOffsets env
              (accumStep (st.calibratingA == env.CALIBRATING_ACC_CYCLES) st.a s))
            { roll := 0, pitch := 0 }]
          else []) := by
    rw [g1, savesOf_append]
    split <;> rfl
  by_cases hf : env.featureInflightAccCal = true
  · obtain ⟨i1, i2, i3⟩ := inflight_nocommit env G (by rw [g3]; exact hs)
    simp only [if_pos hf]
    refine ⟨?_, ?_, ?_⟩
    · show savesOf (performInflightAccelerationCalibration env G).events = _
      rw [i1, savesOf_append, hsave]
      split <;> simp [savesOf]
    · show (performInflightAccelerationCalibration env G).a = _
      rw [i2, g2]
    · exact i3
  · simp only [if_neg hf]
    refine ⟨hsave, g2, ?_⟩
    show G.AccInflightCalibrationSavetoEEProm = false
    rw [g3]; exact hs

theorem feed_saves (env : Env) (l : List Vec3) :
    ∀ (st : AccState) (c : Nat), st.calibratingA = c → c ≤ 65535 →
      st.AccInflightCalibrationSavetoEEProm = false →
      savesOf (feed env st l).events
        = savesOf st.events ++ (if 1 ≤ c ∧ c ≤ l.length then
            [Event.saveConfigAndNotify
              (groundOffsets env (windowAccum env.CALIBRATING_ACC_CYCLES c st.a (l.take c)))
              { roll := 0, pitch := 0 }]
            else []) := by
  induction l with
  | nil =>
    intro st c _ _ _
    have h : ¬ (1 ≤ c ∧ c ≤ ([] : List Vec3).length) := by simp; omega
    rw [feed_nil, if_neg h, List.append_nil]
  | cons s l ih =>
    intro st c hcs hc hs
    subst hcs
    obtain ⟨u1, u2, u3⟩ := update_saves env st s hc hs
    have uc := update_calibratingA env st s hc
    have ih2 := ih (updateAccelerationReadings env (some s) st) (st.calibratingA - 1) uc
      (by omega) u3
    rw [feed_cons, ih2, u1, u2]
    by_cases h0 : st.calibratingA = 0
    · have a1 : ¬ st.calibratingA = 1 := by omega
      have a2 : ¬ (1 ≤ st.calibratingA - 1 ∧ st.calibratingA - 1 ≤ l.length) := by omega
      have a3 : ¬ (1 ≤ st.calibratingA ∧ st.calibratingA ≤ (s :: l).length) := by omega
      rw [if_neg a1, if_neg a2, if_neg a3, List.append_nil]
    · by_cases h1 : st.calibratingA = 1
      · have a2 : ¬ (1 ≤ st.calibratingA - 1 ∧ st.calibratingA - 1 ≤ l.length) := by omega
        have a3 : 1 ≤ st.calibratingA ∧ st.calibratingA ≤ (s :: l).length := by
          rw [List.length_cons]; omega
        rw [if_pos h1, if_neg a2, if_pos a3, List.append_nil, h1]
        rfl
      · obtain ⟨k, hk⟩ : ∃ k, st.calibratingA = k + 2 := ⟨st.calibratingA - 2, by omega⟩
        have e1 : st.calibratingA - 1 = k + 1 := by omega
        rw [if_neg h1, if_neg h0, List.append_nil, e1, hk]
        have hiff : (1 ≤ k + 1 ∧ k + 1 ≤ l.length) ↔ (1 ≤ k + 2 ∧ k + 2 ≤ (s :: l).length) := by
          rw [List.length_cons]; omega
        by_cases hl : 1 ≤ k + 1 ∧ k + 1 ≤ l.length
        · rw [if_pos hl, if_pos (hiff.mp hl)]
          rfl
        · rw [if_neg hl, if_neg (fun h => hl (hiff.mpr h))]

/-- C13 (exactly one persistence request per ground calibration).  After
`accSetCalibrationCycles n` with `1 ≤ n ≤ 65535`, no commit requested, and any
number of successful passes, the persistence requests made are those made
before plus, once `n` passes have run, exactly one: none during the first
`n - 1` passes, one on the `n`-th, none on later passes.  That request carries
the offsets computed on the `n`-th pass and angular trims `(0, 0)`, so it is
made after both have been written; when the in-flight step has nothing to do
these are the Trims and angular trims the window ends with. -/
theorem one_persistence_request (env : Env) (st : AccState) (n : Nat) (samples : List Vec3)
    (h1 : 1 ≤ n) (h2 : n ≤ 65535)
    (hs : st.AccInflightCalibrationSavetoEEProm = false) :
    savesOf (feed env (accSetCalibrationCycles n st) samples).events
      = savesOf st.events ++ (if n ≤ samples.length then
          [Event.saveConfigAndNotify
            (groundOffsets env (windowAccum env.CALIBRATING_ACC_CYCLES n st.a (samples.take n)))
            { roll := 0, pitch := 0 }]
          else []) ∧
    (inflightInert env st → samples.length = n →
      (feed env (accSetCalibrationCycles n st) samples).accelerationTrims
        = groundOffsets env (windowAccum env.CALIBRATING_ACC_CYCLES n st.a (samples.take n)) ∧
      (feed env (accSetCalibrationCycles n st) samples).rollAndPitchTrims
        = { roll := 0, pitch := 0 }) := by
  have hn : n % 65536 = n := by omega
  constructor
  · have h := feed_saves env samples (accSetCalibrationCycles n st) n hn h2 hs
    rw [h]
    by_cases hk : n ≤ samples.length
    · rw [if_pos ⟨h1, hk⟩, if_pos hk]; rfl
    · rw [if_neg (fun h => hk h.2), if_neg hk]; rfl
  · intro hin hlen
    cases samples with
    | nil => simp at hlen; omega
    | cons s l =>
      have hcal : (accSetCalibrationCycles n st).calibratingA = n := hn
      have hl : l.length + 1 = (accSetCalibrationCycles n st).calibratingA := by
        rw [hcal, ← hlen, List.length_cons]
      have ht : (s :: l).take n = s :: l := by rw [← hlen]; exact List.take_length _
      rw [ground_full env l s (accSetCalibrationCycles n st) hl (by rw [hcal]; exact h2)
        (by simpa [inflightInert, accSetCalibrationCycles] using hin), ht]
      refine ⟨?_, rfl⟩
      show groundOffsets env (windowAccum env.CALIBRATING_ACC_CYCLES
        (accSetCalibrationCycles n st).calibratingA st.a (s :: l)) = _
      rw [hcal]

/-- Witness for C13: the window of 400 samples `(10, -20, 500)` armed with 400
makes exactly one persistence request, carrying Trims `(10, -19, 244)` and
angular trims `(0, 0)`; after 399 passes none has been made. -/
theorem one_persistence_request_witness :
    savesOf (feed exampleEnv (accSetCalibrationCycles 400 trimmedState)
      (List.replicate 400 ⟨10, -20, 500⟩)).events
      = [Event.saveConfigAndNotify ⟨10, -19, 244⟩ { roll := 0, pitch := 0 }] ∧
    savesOf (feed exampleEnv (accSetCalibrationCycles 400 trimmedState)
      (List.replicate 399 ⟨10, -20, 500⟩)).events = [] := by
  have h := (one_persistence_request exampleEnv trimmedState 400
    (List.replicate 400 ⟨10, -20, 500⟩) (by decide) (by decide) rfl).1
  have h3 := (one_persistence_request exampleEnv trimmedState 400
    (List.replicate 399 ⟨10, -20, 500⟩) (by decide) (by decide) rfl).1
  constructor
  · have hle : 400 ≤ (List.replicate 400 (⟨10, -20, 500⟩ : Vec3)).length := by
      rw [List.length_replicate]
    have ht : (List.replicate 400 (⟨10, -20, 500⟩ : Vec3)).take 400
        = ⟨10, -20, 500⟩ :: List.replicate 399 ⟨10, -20, 500⟩ := by
      rw [List.take_replicate]; rfl
    rw [h, if_pos hle, ht]
    have hw := windowAccum_armed exampleEnv.CALIBRATING_ACC_CYCLES (by decide) trimmedState.a
      ⟨10, -20, 500⟩ (List.replicate 399 ⟨10, -20, 500⟩)
    rw [show exampleEnv.CALIBRATING_ACC_CYCLES = 400 from rfl] at hw
    rw [show exampleEnv.CALIBRATING_ACC_CYCLES = 400 from rfl, hw, sumSamples_cons,
      sumSamples_replicate]
    decide
  · have hle : ¬ 400 ≤ (List.replicate 399 (⟨10, -20, 500⟩ : Vec3)).length := by
      rw [List.length_replicate]; decide
    rw [h3, if_neg hle]
    decide

theorem feed_idle (env : Env) (l : List Vec3) :
    ∀ st : AccState, st.calibratingA = 0 → inflightInert env st →
      feed env st l = { st with accSmooth := (feed env st l).accSmooth } := by
  induction l with
  | nil => intro st _ _; rfl
  | cons s l ih =>
    intro st hc hin
    rw [feed_cons, update_idle env st s hc hin]
    rw [ih _ (by exact hc) (by simpa [inflightInert] using hin)]

/-- C15 (in-flight completion signalling).  In a window armed with 50 (ground
calibration complete, feature enabled, no commit requested) the first 49 passes
make no call and leave `AccInflightCalibrationMeasurementDone` unchanged; the
50th sets `AccInflightCalibrationMeasurementDone`, clears
`AccInflightCalibrationActive` and makes exactly one call, the calibration
beep; no pass makes a persistence request, and any number of later passes with
`InflightcalibratingA = 0` make no further call. -/
theorem inflight_completion_signalling (env : Env) (st : AccState) (samples : List Vec3)
    (hf : env.featureInflightAccCal = true) (hlen : samples.length = 50)
    (hc : st.calibratingA = 0) (hs : st.AccInflightCalibrationSavetoEEProm = false) :
    (∀ k : Nat, k < 50 →
      (feed env (armInflight 50 st) (samples.take k)).events = st.events ∧
      (feed env (armInflight 50 st) (samples.take k)).AccInflightCalibrationMeasurementDone
        = st.AccInflightCalibrationMeasurementDone) ∧
    (feed env (armInflight 50 st) samples).events
      = st.events ++ [Event.beeper_ACC_CALIBRATION] ∧
    (feed env (armInflight 50 st) samples).AccInflightCalibrationMeasurementDone = true ∧
    (feed env (armInflight 50 st) samples).AccInflightCalibrationActive = false ∧
    (feed env (armInflight 50 st) samples).InflightcalibratingA = 0 ∧
    (∀ later : List Vec3,
      (feed env (feed env (armInflight 50 st) samples) later).events
        = st.events ++ [Event.beeper_ACC_CALIBRATION]) := by
  have hw := armInflight_window env hf st samples hlen hc hs
  refine ⟨?_, ?_, ?_, ?_, ?_, ?_⟩
  · intro k hk
    have hl : (samples.take k).length = k := by rw [List.length_take]; omega
    cases hcases : samples.take k with
    | nil => exact ⟨rfl, rfl⟩
    | cons s l =>
      rw [hcases] at hl
      rw [inflight_running env hf l s (armInflight 50 st) hc
        (by show l.length + 1 < 50 % 65536; simp at hl; omega)
        (by show 50 % 65536 ≤ 50; decide) hs]
      exact ⟨rfl, rfl⟩
  · rw [hw]
  · rw [hw]
  · rw [hw]
  · rw [hw]
  · intro later
    have h0 : (feed env (armInflight 50 st) samples).calibratingA = 0 := by rw [hw]; exact hc
    have h1 : (feed env (armInflight 50 st) samples).InflightcalibratingA = 0 := by rw [hw]
    have h2 : (feed env (armInflight 50 st) samples).AccInflightCalibrationSavetoEEProm
        = false := by rw [hw]; exact hs
    rw [feed_idle env later _ h0 (Or.inr ⟨h1, h2⟩)]
    show (feed env (armInflight 50 st) samples).events = _
    rw [hw]

/-- Witness for C15: from a state with no call made, the window of 50 samples
`(100, -200, 300)` ends with the single call `beeper(BEEPER_ACC_CALIBRATION)`,
the measurement marked done and the active flag clear; one more pass makes no
further call. -/
theorem inflight_completion_signalling_witness :
    (feed exampleEnv (armInflight 50 trimmedState)
      (List.replicate 50 ⟨100, -200, 300⟩)).events = [Event.beeper_ACC_CALIBRATION] ∧
    (feed exampleEnv (armInflight 50 trimmedState)
      (List.replicate 50 ⟨100, -200, 300⟩)).AccInflightCalibrationMeasurementDone = true ∧
    (feed exampleEnv (armInflight 50 trimmedState)
      (List.replicate 50 ⟨100, -200, 300⟩)).AccInflightCalibrationActive = false ∧
    (feed exampleEnv (feed exampleEnv (armInflight 50 trimmedState)
      (List.replicate 50 ⟨100, -200, 300⟩)) [⟨1, 2, 3⟩]).events
        = [Event.beeper_ACC_CALIBRATION] := by
  have h := inflight_completion_signalling exampleEnv trimmedState
    (List.replicate 50 ⟨100, -200, 300⟩) rfl (List.length_replicate _ _) rfl rfl
  exact ⟨h.2.1, h.2.2.1, h.2.2.2.1, h.2.2.2.2.2 [⟨1, 2, 3⟩]⟩

/-! ## Windows armed with another count -/

theorem windowAccum_late (mark : Nat) (hmark : 0 < mark) (d : Nat) :
    ∀ (l : List Vec3) (acc : Vec3), l.length = mark + d →
      windowAccum mark (mark + d) acc l = wrapVec32 (sumSamples (l.drop d)) := by
  induction d with
  | zero =>
    intro l acc hl
    cases l with
    | nil => simp at hl; omega
    | cons s l => exact windowAccum_armed mark hmark acc s l
  | succ d ih =>
    intro l acc hl
    cases l with
    | nil => simp at hl; omega
    | cons s l =>
      have hne : (mark + (d + 1) == mark) = false := by simp
      have e : mark + (d + 1) - 1 = mark + d := by omega
      rw [windowAccum, hne, e, List.drop_succ_cons]
      exact ih l _ (by simp at hl; omega)

/-- C16, counterexample (ground calibration armed with a count other than the
constant).  With `N = 400` and `acc_1G = 256`, armed with 401 and fed one
sample `(1, 2, 3)` and then 400 samples `(32767, -32768, -32768)`, the Trims
are `(32767, -32767, 32513)`, whereas the formula of the claim on the last 400
samples gives `(32767, -32767, -33023)`: the Z value is not an `int16_t` and
is stored reduced modulo `2^16`. -/
theorem ground_other_count_outside_int16 :
    (feed exampleEnv (accSetCalibrationCycles 401 trimmedState)
      (⟨1, 2, 3⟩ :: List.replicate 400 ⟨32767, -32768, -32768⟩)).accelerationTrims
        = ⟨32767, -32767, 32513⟩ ∧
    groundAverage exampleEnv (sumSamples (List.replicate 400 ⟨32767, -32768, -32768⟩))
        = ⟨32767, -32767, -33023⟩ := by
  have hl : (List.replicate 400 (⟨32767, -32768, -32768⟩ : Vec3)).length + 1
      = (accSetCalibrationCycles 401 trimmedState).calibratingA := by
    rw [List.length_replicate]; rfl
  have hw := windowAccum_late exampleEnv.CALIBRATING_ACC_CYCLES (by decide) 1
    (⟨1, 2, 3⟩ :: List.replicate 400 ⟨32767, -32768, -32768⟩) trimmedState.a
    (by rw [List.length_cons, List.length_replicate]; rfl)
  rw [ground_full exampleEnv (List.replicate 400 ⟨32767, -32768, -32768⟩) ⟨1, 2, 3⟩
    (accSetCalibrationCycles 401 trimmedState) hl (by decide) (by decide)]
  show groundOffsets exampleEnv (windowAccum exampleEnv.CALIBRATING_ACC_CYCLES
    (exampleEnv.CALIBRATING_ACC_CYCLES + 1) trimmedState.a
    (⟨1, 2, 3⟩ :: List.replicate 400 ⟨32767, -32768, -32768⟩)) = _ ∧ _
  rw [hw, List.drop_succ_cons, List.drop_zero, sumSamples_replicate]
  decide

/-- C16, amended (ground calibration armed with a count other than the
constant).  With `N = CALIBRATING_ACC_CYCLES`, `N ≤ n ≤ 65535` and the
in-flight step idle (feature disabled, or `InflightcalibratingA = 0` and no
commit requested), arming with `accSetCalibrationCycles n` and running `n`
passes stores, for every sample sequence, the Trims the final cycle computes
in machine arithmetic from the last `N` samples only (per axis their `int32_t`
sum plus `N/2`, divided by `N`, truncating, the Z axis reduced by `acc_1G`,
each value converted to `int16_t`); replacing the first `n - N` samples by any
others gives the same Trims.  When the sums with the rounding term fit
`int32_t` and the three values fit `int16_t` the Trims are exactly
`((S + N/2) / N, ..., ... - acc_1G)` with `S` the sums of the last `N`
samples. -/
theorem ground_other_count (env : Env) (st : AccState) (n : Nat) (samples : List Vec3)
    (hN : 0 < env.CALIBRATING_ACC_CYCLES) (hn1 : env.CALIBRATING_ACC_CYCLES ≤ n)
    (hn2 : n ≤ 65535) (hlen : samples.length = n) (hin : inflightInert env st) :
    (feed env (accSetCalibrationCycles n st) samples).accelerationTrims
      = groundOffsets env
          (wrapVec32 (sumSamples (samples.drop (n - env.CALIBRATING_ACC_CYCLES)))) ∧
    (∀ front : List Vec3, front.length = n - env.CALIBRATING_ACC_CYCLES →
      (feed env (accSetCalibrationCycles n st)
        (front ++ samples.drop (n - env.CALIBRATING_ACC_CYCLES))).accelerationTrims
      = (feed env (accSetCalibrationCycles n st) samples).accelerationTrims) ∧
    (groundFits env (samples.drop (n - env.CALIBRATING_ACC_CYCLES)) →
      (feed env (accSetCalibrationCycles n st) samples).accelerationTrims
        = groundAverage env (sumSamples (samples.drop (n - env.CALIBRATING_ACC_CYCLES)))) := by
  have hnmod : n % 65536 = n := by omega
  have hcal : (accSetCalibrationCycles n st).calibratingA = n := hnmod
  have key : ∀ l : List Vec3, l.length = n →
      (feed env (accSetCalibrationCycles n st) l).accelerationTrims
        = groundOffsets env (wrapVec32 (sumSamples (l.drop (n - env.CALIBRATING_ACC_CYCLES)))) := by
    intro l hl
    cases l with
    | nil => simp at hl; omega
    | cons s t =>
      have hl2 : t.length + 1 = (accSetCalibrationCycles n st).calibratingA := by
        rw [hcal, ← hl, List.length_cons]
      rw [ground_full env t s (accSetCalibrationCycles n st) hl2 (by rw [hcal]; exact hn2)
        (by simpa [inflightInert, accSetCalibrationCycles] using hin)]
      show groundOffsets env (windowAccum env.CALIBRATING_ACC_CYCLES
        (accSetCalibrationCycles n st).calibratingA st.a (s :: t)) = _
      have hd : n = env.CALIBRATING_ACC_CYCLES + (n - env.CALIBRATING_ACC_CYCLES) := by omega
      rw [hcal]
      conv_lhs => rw [hd]
      rw [windowAccum_late _ hN _ _ _ (by rw [hl]; exact hd)]
  refine ⟨key samples hlen, ?_, ?_⟩
  · intro front hfront
    have hl : (front ++ samples.drop (n - env.CALIBRATING_ACC_CYCLES)).length = n := by
      rw [List.length_append, List.length_drop, hfront, hlen]; omega
    rw [key _ hl, key samples hlen, ← hfront, List.drop_left]
  · intro hfit
    rw [key samples hlen]
    exact groundOffsets_of_fits env _ hfit

/-- Witness for C16 (amended): armed with 402, two arbitrary samples followed
by 400 samples `(10, -20, 500)` give Trims `(10, -19, 244)`, the result of
those 400 samples alone. -/
theorem ground_other_count_witness :
    (feed exampleEnv (accSetCalibrationCycles 402 trimmedState)
      (⟨1000, 1000, 1000⟩ :: ⟨-3000, 7, 9⟩ ::
        List.replicate 400 ⟨10, -20, 500⟩)).accelerationTrims = ⟨10, -19, 244⟩ := by
  have hlen : (⟨1000, 1000, 1000⟩ :: ⟨-3000, 7, 9⟩ ::
      List.replicate 400 (⟨10, -20, 500⟩ : Vec3)).length = 402 := by
    rw [List.length_cons, List.length_cons, List.length_replicate]
  have h := (ground_other_count exampleEnv trimmedState 402
    (⟨1000, 1000, 1000⟩ :: ⟨-3000, 7, 9⟩ :: List.replicate 400 ⟨10, -20, 500⟩)
    (by decide) (by decide) (by decide) hlen (by decide)).2.2 fits_example_window
  have h2 : (feed exampleEnv (accSetCalibrationCycles 402 trimmedState)
      (⟨1000, 1000, 1000⟩ :: ⟨-3000, 7, 9⟩ ::
        List.replicate 400 ⟨10, -20, 500⟩)).accelerationTrims
      = groundAverage exampleEnv (sumSamples (List.replicate 400 ⟨10, -20, 500⟩)) := h
  rw [h2, sumSamples_replicate]
  decide

/-- C17 (in-flight calibration armed with fewer than 50 cycles takes no
snapshot).  With the rollback snapshot still all zero (the initial static
state), ground calibration complete, the feature enabled and no commit
requested, setting `InflightcalibratingA = m` with `0 < m < 50` and running `m`
passes ends with `Trims.raw = (0, 0, 0)` and `roll = pitch = 0`, whatever the
pre-arm Trims and angular trims were. -/
theorem inflight_short_window_no_snapshot (env : Env) (st : AccState) (m : Nat)
    (samples : List Vec3)
    (hf : env.featureInflightAccCal = true) (hm0 : 0 < m) (hm50 : m < 50)
    (hlen : samples.length = m) (hc : st.calibratingA = 0)
    (hs : st.AccInflightCalibrationSavetoEEProm = false)
    (hsaved : st.accZero_saved = Vec3.zero)
    (hangle : st.angleTrim_saved = { roll := 0, pitch := 0 }) :
    (feed env (armInflight m st) samples).accelerationTrims = Vec3.zero ∧
    (feed env (armInflight m st) samples).rollAndPitchTrims = { roll := 0, pitch := 0 } ∧
    (feed env (armInflight m st) samples).InflightcalibratingA = 0 := by
  have hmod : m % 65536 = m := by omega
  have hmm : (armInflight m st).InflightcalibratingA = m := hmod
  cases samples with
  | nil => simp at hlen; omega
  | cons s l =>
    have hl : l.length + 1 = (armInflight m st).InflightcalibratingA := by
      rw [hmm, ← hlen, List.length_cons]
    have h50 : ¬ (armInflight m st).InflightcalibratingA = 50 := by rw [hmm]; omega
    rw [inflight_full env hf l s (armInflight m st) hc hl (by rw [hmm]; omega) hs]
    simp only [savedAfter, angleAfter, if_neg h50]
    refine ⟨?_, ?_, trivial⟩
    · show wrapVec16 st.accZero_saved = Vec3.zero
      rw [hsaved]; decide
    · show st.angleTrim_saved = _
      exact hangle

/-- Witness for C17: from Trims `(5, -6, 7)` and angular trims `(1, -2)` with a
zero snapshot, a window armed with 3 ends with Trims `(0, 0, 0)` and angular
trims `(0, 0)`. -/
theorem inflight_short_window_no_snapshot_witness :
    (feed exampleEnv (armInflight 3 trimmedState)
      [⟨100, -200, 300⟩, ⟨100, -200, 300⟩, ⟨100, -200, 300⟩]).accelerationTrims = Vec3.zero ∧
    (feed exampleEnv (armInflight 3 trimmedState)
      [⟨100, -200, 300⟩, ⟨100, -200, 300⟩, ⟨100, -200, 300⟩]).rollAndPitchTrims
        = { roll := 0, pitch := 0 } ∧
    (feed exampleEnv (armInflight 3 trimmedState)
      [⟨100, -200, 300⟩, ⟨100, -200, 300⟩, ⟨100, -200, 300⟩]).InflightcalibratingA = 0 :=
  inflight_short_window_no_snapshot exampleEnv trimmedState 3
    [⟨100, -200, 300⟩, ⟨100, -200, 300⟩, ⟨100, -200, 300⟩] rfl (by decide) (by decide) rfl rfl
    rfl rfl rfl

/-! ## The filter bypass -/

theorem lrintf_intCast (v : Int) : lrintf (v : ℚ) = v := by
  simp [lrintf]

theorem isBinary32_of_int16 (v : Int) (h : inInt16 v) : isBinary32 (floatOfInt16 v) := by
  obtain ⟨h1, h2⟩ := h
  refine ⟨v, 0, ?_, by decide, by decide, ?_⟩
  · rw [abs_lt]; constructor <;> omega
  · simp [floatOfInt16]

/-- C14 (filter bypass is the identity).  After `accelerationFilterInit` with
cutoff 0 the selected function is the pass-through one, and for every raw
sample of `int16_t` values the filtered sample of lines 217-219 (conversion to
`float`, which is exact on these values, pass-through, `lrintf`) equals the raw
sample on each axis; the filter bank is left as it was, whatever earlier
samples made of it, so the result does not depend on them. -/
theorem filter_bypass_identity {β : Type} (lib : FilterLib β) (accSamplingInterval : Nat)
    (fb : FilterBank β) (accADCRaw : Vec3) (h : vecInInt16 accADCRaw) :
    (accelerationFilterInit lib accSamplingInterval 0 fb).accFilterApplyFn
      = some filterApplyFnPtr.nullFilterApply ∧
    filterReadings lib (accelerationFilterInit lib accSamplingInterval 0 fb) accADCRaw
      = some (accADCRaw, accelerationFilterInit lib accSamplingInterval 0 fb) ∧
    isBinary32 (floatOfInt16 accADCRaw.X) ∧ isBinary32 (floatOfInt16 accADCRaw.Y) ∧
    isBinary32 (floatOfInt16 accADCRaw.Z) := by
  obtain ⟨hx, hy, hz⟩ := h
  have wx : wrapInt32 accADCRaw.X = accADCRaw.X := by
    unfold inInt16 at hx; unfold wrapInt32; omega
  have wy : wrapInt32 accADCRaw.Y = accADCRaw.Y := by
    unfold inInt16 at hy; unfold wrapInt32; omega
  have wz : wrapInt32 accADCRaw.Z = accADCRaw.Z := by
    unfold inInt16 at hz; unfold wrapInt32; omega
  refine ⟨rfl, ?_, isBinary32_of_int16 _ hx, isBinary32_of_int16 _ hy,
    isBinary32_of_int16 _ hz⟩
  simp only [filterReadings, accelerationFilterInit, if_true, applyFilterFn, nullFilterApply,
    floatOfInt16, lrintf_intCast, wx, wy, wz]

/-- Witness for C14: from a filter bank with states `17, -3, 250`, the raw
sample `(-32768, 0, 32767)` is filtered to itself after initialisation with
cutoff 0. -/
theorem filter_bypass_identity_witness :
    filterReadings exampleFilterLib (accelerationFilterInit exampleFilterLib 1000 0
      exampleFilterBank) ⟨-32768, 0, 32767⟩
      = some (⟨-32768, 0, 32767⟩,
          accelerationFilterInit exampleFilterLib 1000 0 exampleFilterBank) :=
  (filter_bypass_identity exampleFilterLib 1000 exampleFilterBank ⟨-32768, 0, 32767⟩
    (by decide)).2.1

end Acceleration
